import Mathlib

/-!
# InfluxDB v2 line-protocol publisher: measurement encoding and delivery with backlog

A shallow embedding of `components/influxdb_v2_oss/influxdb.h` and `influxdb.cpp`.

Conventions of the embedding.

* The build is taken with `USE_BINARY_SENSOR`, `USE_SENSOR`, `USE_TEXT_SENSOR` and `USE_TIME`
  all defined, so every conditional block of the source is present.
* A pointer that may be null is an `Option`; dereferencing a null pointer is undefined in the
  source and is the result `none` here.
* A sensor is the snapshot of the values its accessors return at the moment of the call.
  Sensor values are `float` in the source and exact rationals here (no NaN, no infinities).
* `uint8_t` settings are `Fin 256`; the `uint8_t` loop counter is a `Nat` reduced `% 256`
  at its increment.
* `ESP_LOGx` calls write diagnostics only and are left out.
* The HTTP transport is an external collaborator.  Its answers are an arbitrary stream
  `net : Nat → PostResult`, the `i`-th request issued through one `HttpRequestComponent`
  getting the answer `net i`; what the code asks of the transport is recorded in a log.
-/

namespace influxdb

/-! ## Sensors (external collaborators) -/

/-- Snapshot of a `binary_sensor::BinarySensor`. -/
structure BinarySensor where
  has_state : Bool
  state : Bool
  object_id : String
deriving DecidableEq

/-- Snapshot of a `sensor::Sensor`: `get_state()`, `get_raw_state()`, `get_object_id()`. -/
structure Sensor where
  has_state : Bool
  state : ℚ
  raw_state : ℚ
  object_id : String
deriving DecidableEq

/-- Snapshot of a `text_sensor::TextSensor`. -/
structure TextSensor where
  has_state : Bool
  state : String
  raw_state : String
  object_id : String
deriving DecidableEq

/-! ## Fields -/

/-- The source's `enum class SensorFieldFormat`. -/
inductive SensorFieldFormat
  | Float
  | Integer
  | UnsignedInteger
deriving DecidableEq

/-- Members of `BinarySensorField` (with the inherited `field_name_`). -/
structure BinarySensorField where
  field_name_ : String := ""
  sensor_ : Option BinarySensor := none
deriving DecidableEq

/-- Members of `SensorField` (with the inherited `field_name_`).  The source leaves `format_`
without an initialiser; it is always set through `set_format` by the configuration. -/
structure SensorField where
  field_name_ : String := ""
  sensor_ : Option Sensor := none
  format_ : SensorFieldFormat
  accuracy_decimals_ : Int := 4
  raw_state_ : Bool := false
deriving DecidableEq

/-- Members of `TextSensorField` (with the inherited `field_name_`). -/
structure TextSensorField where
  field_name_ : String := ""
  sensor_ : Option TextSensor := none
  raw_state_ : Bool := false
deriving DecidableEq

/-- The abstract class `Field` with its three implementations; virtual dispatch is a match
on the constructor. -/
inductive Field
  | binary_sensor (f : BinarySensorField)
  | sensor (f : SensorField)
  | text_sensor (f : TextSensorField)
deriving DecidableEq

/-- The double-quote character. -/
def double_quote : Char := Char.ofNat 34

/-- `std::lroundf`: nearest integer, halves away from zero (the result is taken to fit a
`long`). -/
def lroundf (x : ℚ) : Int :=
  if 0 ≤ x then ⌊x + 1 / 2⌋ else ⌈x - 1 / 2⌉

/-- `SensorField::set_format`: the first character of the token decides. `format[0]` of an
empty `std::string` is the terminating NUL character. -/
def SensorField.set_format (f : SensorField) (format : String) : SensorField :=
  let c := format.data.headD (Char.ofNat 0)
  if c = 'f' then { f with format_ := SensorFieldFormat.Float }
  else if c = 'i' then { f with format_ := SensorFieldFormat.Integer }
  else { f with format_ := SensorFieldFormat.UnsignedInteger }

/-- `Field::get_field_name`. -/
def Field.get_field_name : Field → String
  | .binary_sensor f => f.field_name_
  | .sensor f => f.field_name_
  | .text_sensor f => f.field_name_

/-- `sensor_has_state()` of the three field classes:
`(this->sensor_ != nullptr) && this->sensor_->has_state()`. -/
def Field.sensor_has_state : Field → Bool
  | .binary_sensor f => match f.sensor_ with
    | none => false
    | some s => s.has_state
  | .sensor f => match f.sensor_ with
    | none => false
    | some s => s.has_state
  | .text_sensor f => match f.sensor_ with
    | none => false
    | some s => s.has_state

/-- `sensor_object_id()` of the three field classes: `this->sensor_->get_object_id()`, with no
null check in the source. -/
def Field.sensor_object_id : Field → Option String
  | .binary_sensor f => f.sensor_.map (·.object_id)
  | .sensor f => f.sensor_.map (·.object_id)
  | .text_sensor f => f.sensor_.map (·.object_id)

section Rendering

/- The helper `value_accuracy_to_string(float, int8_t)` of the ESPHome core, which is not part
of this repository, is a parameter of the embedding. -/
variable (value_accuracy_to_string : ℚ → Int → String)

/-- `BinarySensorField::publish`. -/
def BinarySensorField.publish (f : BinarySensorField) (line : String) : Option String :=
  match f.sensor_ with
  | none => none
  | some s => some (line ++ (if s.state then "1i" else "0i"))

/-- `SensorField::publish`. -/
def SensorField.publish (f : SensorField) (line : String) : Option String :=
  match f.sensor_ with
  | none => none
  | some s =>
    let state : ℚ := if f.raw_state_ then s.raw_state else s.state
    match f.format_ with
    | .Float => some (line ++ value_accuracy_to_string state f.accuracy_decimals_)
    | .Integer => some (line ++ (toString (lroundf state) ++ "i"))
    | .UnsignedInteger => some (line ++ (toString (lroundf |state|) ++ "u"))

/-- `TextSensorField::publish`. -/
def TextSensorField.publish (f : TextSensorField) (line : String) : Option String :=
  match f.sensor_ with
  | none => none
  | some s =>
    let line := line.push double_quote
    let line := if f.raw_state_ then line ++ s.raw_state else line ++ s.state
    some (line.push double_quote)

/-- The virtual `Field::publish(std::string &line)`: the line with the value appended. -/
def Field.publish : Field → String → Option String
  | .binary_sensor f, line => f.publish line
  | .sensor f, line => f.publish value_accuracy_to_string line
  | .text_sensor f, line => f.publish line

/-! ## Measurements -/

/-- Members of `Measurement`. `parent_` is the address of the owning `InfluxDB` object. -/
structure Measurement where
  parent_ : Nat
  url_ : String := ""
  line_prefix_ : String := ""
  fields_ : List Field := []

/-- The `for (const auto field : this->fields_)` loop of `Measurement::publish`, carrying the
locals `line` and `sensor_sep`. -/
def Measurement.publish_loop : List Field → String → Char → Option String
  | [], line, _ => some line
  | field :: rest, line, sensor_sep =>
    if !field.sensor_has_state then
      Measurement.publish_loop rest line sensor_sep
    else
      let line := line.push sensor_sep
      let named : Option String :=
        if !field.get_field_name.isEmpty then some (line ++ field.get_field_name)
        else (field.sensor_object_id).map (fun id => line ++ id)
      match named with
      | none => none
      | some line =>
        let line := line.push '='
        match field.publish value_accuracy_to_string line with
        | none => none
        | some line => Measurement.publish_loop rest line ','

/-- `Measurement::publish(const std::string &timestamp)`. -/
def Measurement.publish (m : Measurement) (timestamp : String) : Option String :=
  match Measurement.publish_loop value_accuracy_to_string m.fields_ m.line_prefix_ ' ' with
  | none => none
  | some line => some (line ++ (timestamp ++ "\n"))

end Rendering

/-! ## The HTTP transport (external collaborator) -/

/-- The source's `http_request::Header`. -/
structure Header where
  name : String
  value : String
deriving DecidableEq

/-- What the transport answers to one request: the response container (`none` is `nullptr`),
given by the byte counts its successive `read` calls return before `read` returns 0, and the
value `status_has_error()` has once the request is over. The two are independent, as in the
source, which tests each of them. -/
structure PostResult where
  response : Option (List Nat)
  status_error : Bool
deriving DecidableEq

/-- A response container obtained from `post`: `id` is the index of the request that produced
it. -/
structure HttpContainer where
  id : Nat
  chunks : List Nat
deriving DecidableEq

/-- What the code asks of the transport. `υ` is the type naming an endpoint string. -/
inductive Event (υ : Type)
  | post (url : υ) (body : String) (headers : List Header)
  | read (container : Nat) (bytes : Nat)
  | end_ (container : Nat)
deriving DecidableEq

/-- True on the `post` events. -/
def Event.is_post {υ : Type} : Event υ → Bool
  | .post _ _ _ => true
  | _ => false

/-- State of the `http_request::HttpRequestComponent` behind `http_request_`: the number of
requests issued so far, the status flag read by `status_has_error()`, and the log. -/
structure HttpRequestComponent (υ : Type) where
  requests : Nat := 0
  status_error : Bool := false
  log : List (Event υ) := []

section Transport

variable {υ : Type} (net : Nat → PostResult)

/-- `HttpRequestComponent::post(url, body, headers)`. -/
def HttpRequestComponent.post (http : HttpRequestComponent υ) (url : υ) (body : String)
    (headers : List Header) : Option HttpContainer × HttpRequestComponent υ :=
  let answer := net http.requests
  (answer.response.map (fun chunks => { id := http.requests, chunks := chunks }),
   { requests := http.requests + 1,
     status_error := answer.status_error,
     log := http.log ++ [Event.post url body headers] })

/-- `Component::status_has_error()`. -/
def HttpRequestComponent.status_has_error (http : HttpRequestComponent υ) : Bool :=
  http.status_error

/-- The loop `while (response->read(buf, sizeof(buf)) != 0) {}`: every read that returns a
non-zero count, then the read that returns 0. -/
def HttpRequestComponent.read_all (http : HttpRequestComponent υ) (response : HttpContainer) :
    HttpRequestComponent υ :=
  { http with
    log := http.log ++ ((response.chunks.takeWhile (fun n => n != 0)).map (Event.read response.id)
      ++ [Event.read response.id 0]) }

/-- `response->end()`. -/
def HttpRequestComponent.end_ (http : HttpRequestComponent υ) (response : HttpContainer) :
    HttpRequestComponent υ :=
  { http with log := http.log ++ [Event.end_ response.id] }

end Transport

/-! ## The coordinator -/

/-- The source's `BacklogEntry`. `url` is a `const std::string &` member in the source: `υ` is
what names the endpoint string (the string itself when the referent is taken to outlive the
entry). `data` is owned by the entry. -/
structure BacklogEntry (υ : Type) where
  url : υ
  data : String
deriving DecidableEq

/-- The `ESPTime` returned by `RealTimeClock::now()`: the `timestamp` member and the value of
`is_valid()`. -/
structure ESPTime where
  timestamp : Int
  is_valid : Bool
deriving DecidableEq

/-- A `time::RealTimeClock`, given by what `now()` returns at the moment of the call. -/
structure RealTimeClock where
  now : ESPTime
deriving DecidableEq

/-- Members of `InfluxDB`, with the state of the component `http_request_` points to. -/
structure InfluxDB (υ : Type) where
  http_request_ : HttpRequestComponent υ := {}
  url_ : String := ""
  token_ : String := ""
  headers_ : List Header := []
  clock_ : Option RealTimeClock := none
  backlog_ : List (BacklogEntry υ) := []
  backlog_max_depth_ : Fin 256 := 0
  backlog_drain_batch_ : Fin 256 := 1

section Coordinator

variable {υ : Type}

/-- `InfluxDB::set_url`. -/
def InfluxDB.set_url (db : InfluxDB υ) (url : String) : InfluxDB υ :=
  { db with url_ := url }

/-- `InfluxDB::set_token`. -/
def InfluxDB.set_token (db : InfluxDB υ) (token : String) : InfluxDB υ :=
  { db with token_ := "Token " ++ token }

/-- `InfluxDB::set_clock`. -/
def InfluxDB.set_clock (db : InfluxDB υ) (clock : Option RealTimeClock) : InfluxDB υ :=
  { db with clock_ := clock }

/-- `InfluxDB::set_backlog_max_depth(uint8_t val)`. -/
def InfluxDB.set_backlog_max_depth (db : InfluxDB υ) (val : Fin 256) : InfluxDB υ :=
  { db with backlog_max_depth_ := val }

/-- `InfluxDB::set_backlog_drain_batch(uint8_t val)`. -/
def InfluxDB.set_backlog_drain_batch (db : InfluxDB υ) (val : Fin 256) : InfluxDB υ :=
  { db with backlog_drain_batch_ := val }

/-- `std::string::c_str()` read back as a string: the characters before the first NUL. -/
def c_str (s : String) : String :=
  String.mk (s.data.takeWhile (fun c => c != Char.ofNat 0))

/-- `InfluxDB::setup`. -/
def InfluxDB.setup (db : InfluxDB υ) : InfluxDB υ :=
  let headers := db.headers_ ++ [{ name := "Content-Type", value := "text/plain; charset=utf-8" }]
  let headers := headers ++ [{ name := "Content-Encoding", value := "identity" }]
  let headers := headers ++ [{ name := "Accept", value := "application/json" }]
  let headers :=
    if !db.token_.isEmpty then headers ++ [{ name := "Authorization", value := c_str db.token_ }]
    else headers
  { db with headers_ := headers }

variable (net : Nat → PostResult)

/-- The `do ... while` drain loop of `InfluxDB::send_data`, entered on a non-empty backlog,
carrying the backlog, the local `item_count` and the transport. Each turn removes the front
entry or leaves the loop, so the recursion is on the backlog. The result is the backlog, the
transport and `item_count` when the loop is left. -/
def InfluxDB.drain_loop (headers : List Header) (drain_batch : Nat) :
    List (BacklogEntry υ) → Nat → HttpRequestComponent υ →
    List (BacklogEntry υ) × HttpRequestComponent υ × Nat
  | [], item_count, http => ([], http, item_count)
  | m :: rest, item_count, http =>
    let posted := http.post net m.url m.data headers
    match posted.1 with
    | none => (m :: rest, posted.2, item_count)
    | some response =>
      if posted.2.status_has_error then (m :: rest, posted.2, item_count)
      else
        let http := posted.2.read_all response
        let http := http.end_ response
        let item_count := (item_count + 1) % 256
        if !rest.isEmpty && decide (item_count < drain_batch) then
          InfluxDB.drain_loop headers drain_batch rest item_count http
        else (rest, http, item_count)

/-- `InfluxDB::send_data(const std::string &url, std::string &&data)`. -/
def InfluxDB.send_data (db : InfluxDB υ) (url : υ) (data : String) : InfluxDB υ :=
  let posted := db.http_request_.post net url data db.headers_
  let response := posted.1
  let http :=
    match response with
    | some r => if !posted.2.status_has_error then posted.2.read_all r else posted.2
    | none => posted.2
  let after : List (BacklogEntry υ) × HttpRequestComponent υ :=
    if db.backlog_max_depth_.val ≠ 0 then
      if http.status_has_error then
        let backlog :=
          if db.backlog_.length = db.backlog_max_depth_.val then db.backlog_.tail
          else db.backlog_
        (backlog ++ [{ url := url, data := data }], http)
      else if !db.backlog_.isEmpty then
        let drained :=
          InfluxDB.drain_loop net db.headers_ db.backlog_drain_batch_.val db.backlog_ 0 http
        (drained.1, drained.2.1)
      else (db.backlog_, http)
    else (db.backlog_, http)
  let http :=
    match response with
    | some r => after.2.end_ r
    | none => after.2
  { db with backlog_ := after.1, http_request_ := http }

/-- A sequence of `send_data` calls on one coordinator. -/
def InfluxDB.send_all (db : InfluxDB υ) (sends : List (υ × String)) : InfluxDB υ :=
  sends.foldl (fun db s => db.send_data net s.1 s.2) db

end Coordinator

section Publishing

variable (value_accuracy_to_string : ℚ → Int → String) (net : Nat → PostResult)

/-- `InfluxDB::publish_action(const Measurement *measurement)`, a static member: `heap` gives
the coordinator at each address. -/
def InfluxDB.publish_action (heap : Nat → InfluxDB String) (measurement : Measurement) :
    Option (Nat → InfluxDB String) :=
  let db := measurement.parent_
  let timestamp : String :=
    match (heap db).clock_ with
    | none => ""
    | some clock => " " ++ toString clock.now.timestamp
  match measurement.publish value_accuracy_to_string timestamp with
  | none => none
  | some data => some (Function.update heap db ((heap db).send_data net measurement.url_ data))

/-- The `for (auto measurement : measurements)` loop of `InfluxDB::publish_batch_action`,
carrying the local `data`. -/
def InfluxDB.publish_batch_loop (db : Nat) (url : String) (timestamp : String) :
    List Measurement → String → Option String
  | [], data => some data
  | measurement :: rest, data =>
    if measurement.parent_ ≠ db then
      InfluxDB.publish_batch_loop db url timestamp rest data
    else if measurement.url_ ≠ url then
      InfluxDB.publish_batch_loop db url timestamp rest data
    else
      match measurement.publish value_accuracy_to_string timestamp with
      | none => none
      | some line => InfluxDB.publish_batch_loop db url timestamp rest (data ++ line)

/-- `InfluxDB::publish_batch_action(std::list<const Measurement *> measurements)`;
`measurements.front()` of an empty list is undefined. -/
def InfluxDB.publish_batch_action (heap : Nat → InfluxDB String)
    (measurements : List Measurement) : Option (Nat → InfluxDB String) :=
  match measurements with
  | [] => none
  | front :: _ =>
    let db := front.parent_
    let url := front.url_
    let timestamp : String :=
      match (heap db).clock_ with
      | none => ""
      | some clock => " " ++ toString clock.now.timestamp
    match InfluxDB.publish_batch_loop value_accuracy_to_string db url timestamp measurements ""
    with
    | none => none
    | some data => some (Function.update heap db ((heap db).send_data net url data))

end Publishing

/-! ## The rendered line in the words of the specification -/

section Specification

variable (value_accuracy_to_string : ℚ → Int → String)

/-- The object id of the sensor of a field (empty when the field has no sensor). -/
def Field.object_id : Field → String
  | .binary_sensor f => (f.sensor_.map (·.object_id)).getD ""
  | .sensor f => (f.sensor_.map (·.object_id)).getD ""
  | .text_sensor f => (f.sensor_.map (·.object_id)).getD ""

/-- The identifier of a field: the explicit field name if it is non-empty, otherwise the
object id of the sensor. -/
def Field.identifier (f : Field) : String :=
  if f.get_field_name.isEmpty then f.object_id else f.get_field_name

/-- The value representation of a field with a sensor: `1i` or `0i` for a boolean state; for a
number the decimal text, the rounded integer with suffix `i`, or the rounded absolute value
with suffix `u`, of the raw or of the processed value; the raw or processed text between
double quotes. -/
def Field.rendered_value : Field → String
  | .binary_sensor f =>
    match f.sensor_ with
    | none => ""
    | some s => if s.state then "1i" else "0i"
  | .sensor f =>
    match f.sensor_ with
    | none => ""
    | some s =>
      let v : ℚ := if f.raw_state_ then s.raw_state else s.state
      match f.format_ with
      | .Float => value_accuracy_to_string v f.accuracy_decimals_
      | .Integer => toString (lroundf v) ++ "i"
      | .UnsignedInteger => toString (lroundf |v|) ++ "u"
  | .text_sensor f =>
    match f.sensor_ with
    | none => ""
    | some s =>
      String.singleton double_quote ++ (if f.raw_state_ then s.raw_state else s.state)
        ++ String.singleton double_quote

/-- One field of the line: separator, identifier, `=`, value. -/
def Field.segment (sep : String) (f : Field) : String :=
  sep ++ f.identifier ++ "=" ++ f.rendered_value value_accuracy_to_string

/-- The fields of the line: the first one after the separator `sep`, every later one after a
comma. -/
def segments (sep : String) : List Field → String
  | [] => ""
  | f :: fs => f.segment value_accuracy_to_string sep ++ segments "," fs

end Specification

/-! ## Transport outcomes in the words of the specification -/

/-- A request succeeds when the transport gives a response and reports no error. -/
def PostResult.succeeds (r : PostResult) : Bool :=
  r.response.isSome && !r.status_error

/-- The number of requests that succeed before the first failing one among the `n` requests
`start`, `start + 1`, ... -/
def leading_successes (net : Nat → PostResult) : Nat → Nat → Nat
  | _, 0 => 0
  | start, n + 1 =>
    if (net start).succeeds then leading_successes net (start + 1) n + 1 else 0

/-- The `post` events of a log. -/
def posts {υ : Type} (log : List (Event υ)) : List (Event υ) :=
  log.filter Event.is_post

/-- The request that posts a backlog entry. -/
def BacklogEntry.repost {υ : Type} (headers : List Header) (e : BacklogEntry υ) : Event υ :=
  Event.post e.url e.data headers

/-- The measurements of a batch that are sent: those whose owning coordinator and endpoint
string both equal those of the first measurement `front`. -/
def valid_in_batch (front : Measurement) (ms : List Measurement) : List Measurement :=
  ms.filter (fun m => decide (m.parent_ = front.parent_) && decide (m.url_ = front.url_))

/-! ## Concrete inputs -/

/-- A measurement with four fields: a numeric field without a sensor, a boolean field named by
its sensor, a text field whose sensor has not reported yet, and a boolean field with an
explicit name. -/
def example_measurement : Measurement :=
  { parent_ := 0
    url_ := "http://db/api/v2/write?org=o&bucket=b"
    line_prefix_ := "weather,loc=roof"
    fields_ :=
      [ Field.sensor { format_ := SensorFieldFormat.Integer },
        Field.binary_sensor { sensor_ := some { has_state := true, state := true, object_id := "door" } },
        Field.text_sensor
          { field_name_ := "note", sensor_ := some { has_state := false, state := "", raw_state := "", object_id := "t" } },
        Field.binary_sensor
          { field_name_ := "win", sensor_ := some { has_state := true, state := false, object_id := "w" } } ] }

/-- The backlog entry a failed send of `(url, data)` creates. -/
def entry_of {υ : Type} (s : υ × String) : BacklogEntry υ :=
  { url := s.1, data := s.2 }

/-- A transport on which every request fails: no response, error status set. -/
def net_down : Nat → PostResult :=
  fun _ => { response := none, status_error := true }

/-- A transport on which every request succeeds with a body read in one piece. -/
def net_up : Nat → PostResult :=
  fun _ => { response := some [12], status_error := false }

/-- A transport on which request number 1 alone fails, with a response and the error status. -/
def net_second_fails : Nat → PostResult :=
  fun i => if i = 1 then { response := some [], status_error := true }
    else { response := some [12], status_error := false }

/-- A transport that answers every request with a null response and leaves the error status
clear. -/
def net_null : Nat → PostResult :=
  fun _ => { response := none, status_error := false }

/-- A coordinator with the given max depth, drain batch size and backlog. -/
def example_db (depth batch : Fin 256) (backlog : List (BacklogEntry String)) : InfluxDB String :=
  { backlog_max_depth_ := depth, backlog_drain_batch_ := batch, backlog_ := backlog }

/-- Three sends to one endpoint. -/
def example_sends : List (String × String) :=
  [("http://db/w", "m a=1i\n"), ("http://db/w", "m a=2i\n"), ("http://db/w", "m a=3i\n")]

/-- Three queued entries, oldest first. -/
def example_backlog : List (BacklogEntry String) :=
  [{ url := "http://db/w", data := "m a=1i\n" }, { url := "http://db/w", data := "m a=2i\n" },
   { url := "http://db/w", data := "m a=3i\n" }]

/-- Coordinators whose clock is configured and reports epoch second 5 without valid time. -/
def example_heap_invalid_clock : Nat → InfluxDB String :=
  fun _ => { clock_ := some { now := { timestamp := 5, is_valid := false } } }

/-- A batch of four measurements: `example_measurement`, one of another coordinator, one of the
same coordinator and endpoint, and one of another endpoint. -/
def example_batch : List Measurement :=
  [ example_measurement,
    { example_measurement with parent_ := 7, line_prefix_ := "other_db" },
    { example_measurement with line_prefix_ := "indoor" },
    { example_measurement with url_ := "http://db/api/v2/write?org=o&bucket=c",
                               line_prefix_ := "other_bucket" } ]

/-- Coordinators whose clock is configured and reports epoch second 1700000000 with valid
time. -/
def example_heap_valid_clock : Nat → InfluxDB String :=
  fun _ => { clock_ := some { now := { timestamp := 1700000000, is_valid := true } } }

/-- Coordinators without a clock. -/
def example_heap_no_clock : Nat → InfluxDB String :=
  fun _ => {}

/-- A numeric field in the given format, reading the raw value when `raw` is set, on a sensor
with the given processed and raw values. -/
def example_sensor_field (format : SensorFieldFormat) (raw : Bool) (state raw_state : ℚ) :
    SensorField :=
  { sensor_ := some { has_state := true, state := state, raw_state := raw_state,
                      object_id := "temp" }
    format_ := format
    raw_state_ := raw }

/-! ## Endpoint strings by reference -/

/-- The `std::string` objects the reference member `BacklogEntry::url` can be bound to: the
member `url_` of the measurement at an address, or the local `url` of one activation of
`publish_batch_action`. -/
inductive UrlRef
  | member (measurement : Nat)
  | batch_local (activation : Nat)
deriving DecidableEq

/-- The string objects that are alive, each with its content; `none` is an object that does not
exist or has been destroyed. -/
def Memory : Type := UrlRef → Option String

section PublishingByReference

variable (value_accuracy_to_string : ℚ → Int → String) (net : Nat → PostResult)

/-- `InfluxDB::publish_action` with the endpoint passed as in the source, by reference:
`measurement->get_url()` is a reference to the member `url_` of the measurement, which is at
`address`. No string object is created or destroyed. -/
def InfluxDB.publish_action_ref (memory : Memory) (heap : Nat → InfluxDB UrlRef)
    (address : Nat) (measurement : Measurement) :
    Option ((Nat → InfluxDB UrlRef) × Memory) :=
  let db := measurement.parent_
  let timestamp : String :=
    match (heap db).clock_ with
    | none => ""
    | some clock => " " ++ toString clock.now.timestamp
  match measurement.publish value_accuracy_to_string timestamp with
  | none => none
  | some data =>
    some (Function.update heap db ((heap db).send_data net (UrlRef.member address) data),
          memory)

/-- `InfluxDB::publish_batch_action` with the endpoint passed as in the source, by reference:
`auto url = measurements.front()->get_url()` copies the endpoint into a local of this
activation, `send_data` receives a reference to that local, and the local is destroyed when the
function returns. -/
def InfluxDB.publish_batch_action_ref (memory : Memory) (heap : Nat → InfluxDB UrlRef)
    (activation : Nat) (measurements : List Measurement) :
    Option ((Nat → InfluxDB UrlRef) × Memory) :=
  match measurements with
  | [] => none
  | front :: _ =>
    let db := front.parent_
    let url := front.url_
    let memory : Memory := Function.update memory (UrlRef.batch_local activation) (some url)
    let timestamp : String :=
      match (heap db).clock_ with
      | none => ""
      | some clock => " " ++ toString clock.now.timestamp
    match InfluxDB.publish_batch_loop value_accuracy_to_string db url timestamp measurements ""
    with
    | none => none
    | some data =>
      some (Function.update heap db
              ((heap db).send_data net (UrlRef.batch_local activation) data),
            Function.update memory (UrlRef.batch_local activation) none)

end PublishingByReference

/-- The three headers `setup` always adds. -/
def base_headers : List Header :=
  [{ name := "Content-Type", value := "text/plain; charset=utf-8" },
   { name := "Content-Encoding", value := "identity" },
   { name := "Accept", value := "application/json" }]

/-- A credential with a NUL character in the middle. -/
def example_credential_with_nul : String :=
  String.mk ['a', Char.ofNat 0, 'b']

/-- A transport on which request number 0 alone fails, without a response. -/
def net_first_fails : Nat → PostResult :=
  fun i => if i = 0 then { response := none, status_error := true }
    else { response := some [12], status_error := false }

/-- A coordinator, with endpoints by reference, that has max depth 1 and an empty backlog. -/
def example_db_ref : InfluxDB UrlRef :=
  { backlog_max_depth_ := 1 }

/-- Memory in which the member `url_` of every measurement holds the endpoint of
`example_measurement` and no local exists. -/
def example_memory : Memory :=
  fun r =>
    match r with
    | UrlRef.member _ => some example_measurement.url_
    | UrlRef.batch_local _ => none

/-- A transport on which request number 0 alone gets a null response, with the error status
clear, and every other request succeeds. -/
def net_first_null : Nat → PostResult :=
  fun i => if i = 0 then { response := none, status_error := false }
    else { response := some [12], status_error := false }

/-- A coordinator with max depth 2 after `set_token` with the credential `secret` and
`setup`. -/
def example_db_set_up : InfluxDB String :=
  ((example_db 2 1 []).set_token "secret").setup

/-! ## Lemmas on strings -/

theorem string_push_eq (s : String) (c : Char) : s.push c = s ++ String.singleton c := by
  apply String.ext
  simp [String.data_push, String.data_append, String.singleton]

theorem string_append_empty (s : String) : s ++ "" = s := by
  apply String.ext
  simp [String.data_append]

/-! ## Rendering one measurement -/

section RenderingProofs

variable (value_accuracy_to_string : ℚ → Int → String)

/-- A field that has a current state has a sensor: its object id can be read and its value is
appended to the line. -/
theorem Field.publish_of_has_state (f : Field) (h : f.sensor_has_state = true) (line : String) :
    f.sensor_object_id = some f.object_id ∧
    f.publish value_accuracy_to_string line
      = some (line ++ f.rendered_value value_accuracy_to_string) := by
  cases f with
  | binary_sensor f =>
    cases hs : f.sensor_ with
    | none => simp [Field.sensor_has_state, hs] at h
    | some s =>
      simp [Field.sensor_object_id, Field.object_id, Field.publish, BinarySensorField.publish,
        Field.rendered_value, hs]
  | sensor f =>
    cases hs : f.sensor_ with
    | none => simp [Field.sensor_has_state, hs] at h
    | some s =>
      cases hf : f.format_ <;>
      simp [Field.sensor_object_id, Field.object_id, Field.publish, SensorField.publish,
        Field.rendered_value, hs, hf]
  | text_sensor f =>
    cases hs : f.sensor_ with
    | none => simp [Field.sensor_has_state, hs] at h
    | some s =>
      simp only [Field.sensor_object_id, Field.object_id, Field.publish, TextSensorField.publish,
        Field.rendered_value, hs, Option.map_some', Option.getD_some, true_and, Option.some.injEq]
      cases f.raw_state_ <;>
      · apply String.ext
        simp [string_push_eq, String.data_append, List.append_assoc]

/-- The loop of `Measurement::publish` appends the segments of the fields that have a state. -/
theorem Measurement.publish_loop_eq (fs : List Field) (line : String) (sensor_sep : Char) :
    Measurement.publish_loop value_accuracy_to_string fs line sensor_sep
      = some (line ++ segments value_accuracy_to_string (String.singleton sensor_sep)
          (fs.filter Field.sensor_has_state)) := by
  induction fs generalizing line sensor_sep with
  | nil => simp [Measurement.publish_loop, segments, string_append_empty]
  | cons f rest ih =>
    cases h : f.sensor_has_state with
    | false => simp [Measurement.publish_loop, h, ih]
    | true =>
      have hid := (Field.publish_of_has_state value_accuracy_to_string f h "").1
      have hpub := fun line => (Field.publish_of_has_state value_accuracy_to_string f h line).2
      simp only [Measurement.publish_loop, h, List.filter_cons, segments, Field.segment,
        Field.identifier, hid, hpub, ih]
      cases hn : f.get_field_name.isEmpty <;>
      · simp only [Bool.not_true, Bool.not_false, Bool.false_eq_true, if_true, if_false,
          Option.map_some', Option.some.injEq]
        apply String.ext
        simp [string_push_eq, String.data_append, List.append_assoc]
        rfl

/-- The call `Measurement::publish` always returns a line: prefix, segments, suffix, newline. -/
theorem Measurement.publish_eq (m : Measurement) (ts : String) :
    m.publish value_accuracy_to_string ts
      = some (m.line_prefix_
          ++ segments value_accuracy_to_string " " (m.fields_.filter Field.sensor_has_state)
          ++ ts ++ "\n") := by
  simp only [Measurement.publish, Measurement.publish_loop_eq, Option.some.injEq]
  apply String.ext
  simp [String.data_append, List.append_assoc]
  rfl

/-- C1: `Measurement::publish(ts)` returns the line prefix, then for each field that has a
current state, in field order, a separator (a space before the first such field, a comma before
each later one), the identifier (the explicit name if non-empty, else the object id of the
sensor), `=` and the rendered value, then `ts` and one newline; when no field has a current
state the result is the prefix, `ts` and the newline. -/
theorem C1_publish_renders_line (m : Measurement) (ts : String) :
    m.publish value_accuracy_to_string ts
        = some (m.line_prefix_
            ++ segments value_accuracy_to_string " " (m.fields_.filter Field.sensor_has_state)
            ++ ts ++ "\n")
      ∧ (m.fields_.filter Field.sensor_has_state = [] →
          m.publish value_accuracy_to_string ts = some (m.line_prefix_ ++ ts ++ "\n")) := by
  have key := Measurement.publish_eq value_accuracy_to_string m ts
  refine ⟨key, fun hnone => ?_⟩
  rw [key, hnone]
  simp [segments, string_append_empty]

/-- C2: fields lacking a current state contribute nothing: the rendered line is the line of the
measurement whose field list has every stateless field removed. -/
theorem C2_stateless_fields_omitted (m : Measurement) (ts : String) :
    m.publish value_accuracy_to_string ts
      = Measurement.publish value_accuracy_to_string
          { m with fields_ := m.fields_.filter Field.sensor_has_state } ts := by
  simp only [Measurement.publish, Measurement.publish_loop_eq, List.filter_filter, Bool.and_self]

end RenderingProofs

/-- C1 at `example_measurement` with the suffix ` 17`: the two fields with a state are rendered,
the first after a space and the second after a comma. -/
theorem C1_publish_renders_line_witness :
    example_measurement.publish (fun _ _ => "") " 17"
      = some "weather,loc=roof door=1i,win=0i 17\n" :=
  (C1_publish_renders_line (fun _ _ => "") example_measurement " 17").1.trans (by decide)

/-! ## The drain loop -/

section CoordinatorProofs

variable {υ : Type} (net : Nat → PostResult)

theorem leading_successes_le (start n : Nat) : leading_successes net start n ≤ n := by
  induction n generalizing start with
  | zero => simp [leading_successes]
  | succ n ih =>
    simp only [leading_successes]
    split
    · exact Nat.succ_le_succ (ih _)
    · exact Nat.zero_le _

theorem posts_append (l₁ l₂ : List (Event υ)) : posts (l₁ ++ l₂) = posts l₁ ++ posts l₂ := by
  simp [posts]

theorem posts_read_all (http : HttpRequestComponent υ) (r : HttpContainer) :
    posts (http.read_all r).log = posts http.log := by
  simp [HttpRequestComponent.read_all, posts, List.filter_append, List.filter_map,
    List.filter_eq_nil_iff, Event.is_post]

theorem posts_end (http : HttpRequestComponent υ) (r : HttpContainer) :
    posts (http.end_ r).log = posts http.log := by
  simp [HttpRequestComponent.end_, posts, List.filter_append, Event.is_post]

theorem posts_post (http : HttpRequestComponent υ) (url : υ) (body : String)
    (headers : List Header) :
    posts (http.post net url body headers).2.log
      = posts http.log ++ [Event.post url body headers] := by
  simp [HttpRequestComponent.post, posts, List.filter_append, Event.is_post]

/-- The drain loop, started with `item_count = c` on the backlog `B`: with `limit` the smaller
of `max (b - c) 1` and the length of `B`, and `k` the number of leading successes among the next
`limit` requests, the loop removes the first `k` entries, counts them, and issues `k` requests
and one more when it meets a failure. -/
theorem InfluxDB.drain_loop_eq (headers : List Header) (b : Nat) (hb : b < 256) :
    ∀ (B : List (BacklogEntry υ)) (c : Nat) (http : HttpRequestComponent υ), c < 255 →
      InfluxDB.drain_loop net headers b B c http =
        (B.drop (leading_successes net http.requests (min (max (b - c) 1) B.length)),
         (InfluxDB.drain_loop net headers b B c http).2.1,
         c + leading_successes net http.requests (min (max (b - c) 1) B.length))
      ∧ (InfluxDB.drain_loop net headers b B c http).2.1.requests
          = http.requests
            + min (leading_successes net http.requests (min (max (b - c) 1) B.length) + 1)
                (min (max (b - c) 1) B.length)
      ∧ posts (InfluxDB.drain_loop net headers b B c http).2.1.log
          = posts http.log
            ++ (B.take (min (leading_successes net http.requests
                  (min (max (b - c) 1) B.length) + 1)
                (min (max (b - c) 1) B.length))).map (BacklogEntry.repost headers) := by
  intro B
  induction B with
  | nil =>
    intro c http _
    simp [InfluxDB.drain_loop, leading_successes]
  | cons m rest ih =>
    intro c http hc
    have hlim : min (max (b - c) 1) (m :: rest).length
        = min (max (b - c) 1 - 1) rest.length + 1 := by
      simp only [List.length_cons]; omega
    rw [hlim]
    simp only [leading_successes]
    cases hr : (net http.requests).response with
    | none =>
      simp [InfluxDB.drain_loop, HttpRequestComponent.post, hr, PostResult.succeeds, posts,
        List.filter_append, Event.is_post, BacklogEntry.repost]
    | some chunks =>
      cases he : (net http.requests).status_error with
      | true =>
        simp [InfluxDB.drain_loop, HttpRequestComponent.post, hr, he, PostResult.succeeds, posts,
          List.filter_append, Event.is_post, BacklogEntry.repost,
          HttpRequestComponent.status_has_error]
      | false =>
        have hmod : (c + 1) % 256 = c + 1 := Nat.mod_eq_of_lt (by omega)
        have hsucc : (net http.requests).succeeds = true := by
          simp [PostResult.succeeds, hr, he]
        obtain ⟨http1, hdef⟩ : ∃ h1, h1 = ((http.post net m.url m.data headers).2.read_all
            ⟨http.requests, chunks⟩).end_ ⟨http.requests, chunks⟩ := ⟨_, rfl⟩
        have hreq : http1.requests = http.requests + 1 := by rw [hdef]; rfl
        have hlog : posts http1.log = posts http.log ++ [BacklogEntry.repost headers m] := by
          rw [hdef, posts_end, posts_read_all, posts_post]; rfl
        by_cases hcont : rest ≠ [] ∧ c + 1 < b
        · have hunf : InfluxDB.drain_loop net headers b (m :: rest) c http
              = InfluxDB.drain_loop net headers b rest (c + 1) http1 := by
            rw [hdef]
            simp [InfluxDB.drain_loop, HttpRequestComponent.post, hr, he, hmod, hcont,
              HttpRequestComponent.status_has_error, HttpRequestComponent.read_all,
              HttpRequestComponent.end_]
          have hl : min (max (b - c) 1 - 1) rest.length
              = min (max (b - (c + 1)) 1) rest.length := by omega
          obtain ⟨h1, h2, h3⟩ := ih (c + 1) http1 (by omega)
          rw [hreq] at h1 h2 h3
          rw [hunf, hl, if_pos hsucc]
          refine ⟨?_, ?_, ?_⟩
          · have hk : ∀ K : Nat, c + (K + 1) = c + 1 + K := fun K => by omega
            rw [List.drop_succ_cons,
              hk (leading_successes net (http.requests + 1)
                (min (max (b - (c + 1)) 1) rest.length))]
            exact h1
          · rw [h2]; omega
          · rw [h3, hlog]
            rw [Nat.add_min_add_right, List.take_succ_cons, List.map_cons, List.append_assoc]
            rfl
        · have hunf : InfluxDB.drain_loop net headers b (m :: rest) c http
              = (rest, http1, c + 1) := by
            rw [hdef]
            have hcont2 : rest = [] ∨ ¬ c + 1 < b := by
              by_cases hrest : rest = []
              · exact Or.inl hrest
              · exact Or.inr (fun h => hcont ⟨hrest, h⟩)
            rcases hcont2 with hrest | hlt
            · simp [InfluxDB.drain_loop, HttpRequestComponent.post, hr, he, hmod, hrest,
                HttpRequestComponent.status_has_error, HttpRequestComponent.read_all,
                HttpRequestComponent.end_]
            · simp [InfluxDB.drain_loop, HttpRequestComponent.post, hr, he, hmod, hlt,
                HttpRequestComponent.status_has_error, HttpRequestComponent.read_all,
                HttpRequestComponent.end_]
          have hl : min (max (b - c) 1 - 1) rest.length = 0 := by
            by_cases hrest : rest = []
            · simp [hrest]
            · have : ¬ c + 1 < b := fun h => hcont ⟨hrest, h⟩
              have : max (b - c) 1 - 1 = 0 := by omega
              simp [this]
          rw [hunf, hl, if_pos hsucc]
          simp [leading_successes, hreq, hlog]

/-! ## One call of `send_data` -/

/-- The call `send_data` leaves the settings, the headers and the clock as they are. -/
theorem InfluxDB.send_data_settings (db : InfluxDB υ) (url : υ) (data : String) :
    (db.send_data net url data).backlog_max_depth_ = db.backlog_max_depth_
      ∧ (db.send_data net url data).backlog_drain_batch_ = db.backlog_drain_batch_
      ∧ (db.send_data net url data).headers_ = db.headers_
      ∧ (db.send_data net url data).clock_ = db.clock_ :=
  ⟨rfl, rfl, rfl, rfl⟩

/-- With max depth 0 the backlog is not touched and the call issues the one request for its own
payload. -/
theorem InfluxDB.send_data_disabled (db : InfluxDB υ) (url : υ) (data : String)
    (h : db.backlog_max_depth_.val = 0) :
    (db.send_data net url data).backlog_ = db.backlog_
      ∧ (db.send_data net url data).http_request_.requests = db.http_request_.requests + 1
      ∧ posts (db.send_data net url data).http_request_.log
          = posts db.http_request_.log ++ [Event.post url data db.headers_] := by
  cases hr : (net db.http_request_.requests).response <;>
  cases he : (net db.http_request_.requests).status_error <;>
  simp [InfluxDB.send_data, HttpRequestComponent.post, hr, he, h,
    HttpRequestComponent.status_has_error, HttpRequestComponent.read_all,
    HttpRequestComponent.end_, posts, List.filter_append, List.filter_map,
    List.filter_eq_nil_iff, Event.is_post]

/-- With a backlog configured and the error status set after the request, the payload is put
at the back of the backlog, after the oldest entry is dropped from a backlog at max depth, and
no other request is issued. -/
theorem InfluxDB.send_data_failed (db : InfluxDB υ) (url : υ) (data : String)
    (h : db.backlog_max_depth_.val ≠ 0)
    (he : (net db.http_request_.requests).status_error = true) :
    (db.send_data net url data).backlog_
        = (if db.backlog_.length = db.backlog_max_depth_.val then db.backlog_.tail
            else db.backlog_) ++ [{ url := url, data := data }]
      ∧ (db.send_data net url data).http_request_.requests = db.http_request_.requests + 1
      ∧ posts (db.send_data net url data).http_request_.log
          = posts db.http_request_.log ++ [Event.post url data db.headers_] := by
  cases hr : (net db.http_request_.requests).response <;>
  simp [InfluxDB.send_data, HttpRequestComponent.post, hr, he, h,
    HttpRequestComponent.status_has_error, HttpRequestComponent.read_all,
    HttpRequestComponent.end_, posts, List.filter_append, List.filter_map,
    List.filter_eq_nil_iff, Event.is_post]

/-- With a backlog configured and no error status after the request, the backlog loses its
first `k` entries, where `k` counts the leading successes among the re-posts of the first
`min (max b 1) |B|` entries; the re-posts follow the request for the payload, oldest entry
first, `k` of them and one more when a re-post fails. -/
theorem InfluxDB.send_data_ok (db : InfluxDB υ) (url : υ) (data : String)
    (h : db.backlog_max_depth_.val ≠ 0)
    (he : (net db.http_request_.requests).status_error = false) :
    (db.send_data net url data).backlog_
        = db.backlog_.drop (leading_successes net (db.http_request_.requests + 1)
            (min (max db.backlog_drain_batch_.val 1) db.backlog_.length))
      ∧ (db.send_data net url data).http_request_.requests
          = db.http_request_.requests + 1
            + min (leading_successes net (db.http_request_.requests + 1)
                (min (max db.backlog_drain_batch_.val 1) db.backlog_.length) + 1)
              (min (max db.backlog_drain_batch_.val 1) db.backlog_.length)
      ∧ posts (db.send_data net url data).http_request_.log
          = posts db.http_request_.log ++ Event.post url data db.headers_ ::
              (db.backlog_.take
                (min (leading_successes net (db.http_request_.requests + 1)
                    (min (max db.backlog_drain_batch_.val 1) db.backlog_.length) + 1)
                  (min (max db.backlog_drain_batch_.val 1) db.backlog_.length))).map
                (BacklogEntry.repost db.headers_) := by
  obtain ⟨http2, hdef⟩ : ∃ h2 : HttpRequestComponent υ, h2 =
      (match (db.http_request_.post net url data db.headers_).1 with
        | some r =>
          if !(db.http_request_.post net url data db.headers_).2.status_has_error then
            (db.http_request_.post net url data db.headers_).2.read_all r
          else (db.http_request_.post net url data db.headers_).2
        | none => (db.http_request_.post net url data db.headers_).2) := ⟨_, rfl⟩
  have hreq : http2.requests = db.http_request_.requests + 1 := by
    rw [hdef]
    cases hr : (net db.http_request_.requests).response <;>
    simp [HttpRequestComponent.post, hr, he, HttpRequestComponent.status_has_error,
      HttpRequestComponent.read_all]
  have hst : http2.status_has_error = false := by
    rw [hdef]
    cases hr : (net db.http_request_.requests).response <;>
    simp [HttpRequestComponent.post, hr, he, HttpRequestComponent.status_has_error,
      HttpRequestComponent.read_all]
  have hlog : posts http2.log = posts db.http_request_.log ++ [Event.post url data db.headers_] := by
    rw [hdef]
    cases hr : (net db.http_request_.requests).response <;>
    simp [HttpRequestComponent.post, hr, he, HttpRequestComponent.status_has_error,
      HttpRequestComponent.read_all, posts, List.filter_append, List.filter_map,
      List.filter_eq_nil_iff, Event.is_post]
  obtain ⟨d1, d2, d3⟩ := InfluxDB.drain_loop_eq net db.headers_ db.backlog_drain_batch_.val
    db.backlog_drain_batch_.isLt db.backlog_ 0 http2 (by omega)
  rw [hreq] at d1 d2 d3
  rw [hlog] at d3
  simp only [Nat.sub_zero] at d1 d2 d3
  have hsend : db.send_data net url data =
      { db with
        backlog_ := (InfluxDB.drain_loop net db.headers_ db.backlog_drain_batch_.val
          db.backlog_ 0 http2).1
        http_request_ :=
          match (db.http_request_.post net url data db.headers_).1 with
          | some r => (InfluxDB.drain_loop net db.headers_ db.backlog_drain_batch_.val
              db.backlog_ 0 http2).2.1.end_ r
          | none => (InfluxDB.drain_loop net db.headers_ db.backlog_drain_batch_.val
              db.backlog_ 0 http2).2.1 } := by
    cases hB : db.backlog_ with
    | nil =>
      simp only [InfluxDB.send_data, ← hdef, hst, h, hB, InfluxDB.drain_loop]
      simp
    | cons m rest =>
      simp only [InfluxDB.send_data, ← hdef, hst, h, hB]
      simp [h]
  rw [hsend]
  refine ⟨?_, ?_, ?_⟩
  · simp only
    rw [d1]
  · cases hr : (db.http_request_.post net url data db.headers_).1 with
    | none => simp only; rw [d2]
    | some r => simp only [HttpRequestComponent.end_]; rw [d2]
  · cases hr : (db.http_request_.post net url data db.headers_).1 with
    | none => simp only; rw [d3]; simp
    | some r => simp only [posts_end]; rw [d3]; simp

/-! ## Sequences of sends -/

theorem InfluxDB.send_all_cons (db : InfluxDB υ) (s : υ × String) (sends : List (υ × String)) :
    db.send_all net (s :: sends) = (db.send_data net s.1 s.2).send_all net sends := rfl

theorem InfluxDB.send_all_settings (db : InfluxDB υ) (sends : List (υ × String)) :
    (db.send_all net sends).backlog_max_depth_ = db.backlog_max_depth_
      ∧ (db.send_all net sends).headers_ = db.headers_ := by
  induction sends generalizing db with
  | nil => exact ⟨rfl, rfl⟩
  | cons s rest ih =>
    rw [InfluxDB.send_all_cons]
    exact ih (db.send_data net s.1 s.2)

/-- One call keeps a backlog within the max depth. -/
theorem InfluxDB.send_data_capacity (db : InfluxDB υ) (url : υ) (data : String)
    (hcap : db.backlog_.length ≤ db.backlog_max_depth_.val) :
    (db.send_data net url data).backlog_.length ≤ db.backlog_max_depth_.val := by
  by_cases h : db.backlog_max_depth_.val = 0
  · rw [(InfluxDB.send_data_disabled net db url data h).1]
    exact hcap
  · cases he : (net db.http_request_.requests).status_error with
    | true =>
      rw [(InfluxDB.send_data_failed net db url data h he).1]
      by_cases hfull : db.backlog_.length = db.backlog_max_depth_.val
      · simp only [hfull, if_true, List.length_append, List.length_tail, List.length_singleton]
        omega
      · simp only [hfull, if_false, List.length_append, List.length_singleton]
        omega
    | false =>
      rw [(InfluxDB.send_data_ok net db url data h he).1, List.length_drop]
      omega

theorem InfluxDB.send_all_capacity (db : InfluxDB υ) (sends : List (υ × String))
    (hcap : db.backlog_.length ≤ db.backlog_max_depth_.val) :
    (db.send_all net sends).backlog_.length ≤ db.backlog_max_depth_.val := by
  induction sends generalizing db with
  | nil => exact hcap
  | cons s rest ih =>
    rw [InfluxDB.send_all_cons]
    have h1 := InfluxDB.send_data_capacity net db s.1 s.2 hcap
    have h2 := ih (db.send_data net s.1 s.2) h1
    exact h2

/-- Sends that all meet the error status fill the backlog in order and keep its last
`max depth` entries. -/
theorem InfluxDB.send_all_failed (db : InfluxDB υ) (sends : List (υ × String))
    (hN : db.backlog_max_depth_.val ≠ 0)
    (hcap : db.backlog_.length ≤ db.backlog_max_depth_.val)
    (hfail : ∀ i, i < sends.length →
      (net (db.http_request_.requests + i)).status_error = true) :
    (db.send_all net sends).backlog_
      = (db.backlog_ ++ sends.map entry_of).drop
          (db.backlog_.length + sends.length - db.backlog_max_depth_.val) := by
  induction sends generalizing db with
  | nil =>
    have : db.backlog_.length + ([] : List (υ × String)).length - db.backlog_max_depth_.val = 0 := by
      simp only [List.length_nil]; omega
    rw [this]
    simp [InfluxDB.send_all]
  | cons s rest ih =>
    rw [InfluxDB.send_all_cons]
    have he : (net db.http_request_.requests).status_error = true := by
      have := hfail 0 (by simp)
      simpa using this
    obtain ⟨hb, hr, _⟩ := InfluxDB.send_data_failed net db s.1 s.2 hN he
    have hcap1 := InfluxDB.send_data_capacity net db s.1 s.2 hcap
    have hfail1 : ∀ i, i < rest.length →
        (net ((db.send_data net s.1 s.2).http_request_.requests + i)).status_error = true := by
      intro i hi
      rw [hr]
      have := hfail (i + 1) (by simp only [List.length_cons]; omega)
      rw [show db.http_request_.requests + 1 + i = db.http_request_.requests + (i + 1) by omega]
      exact this
    rw [ih (db.send_data net s.1 s.2) hN hcap1 hfail1, hb]
    rw [show (db.send_data net s.1 s.2).backlog_max_depth_ = db.backlog_max_depth_ from rfl]
    by_cases hfull : db.backlog_.length = db.backlog_max_depth_.val
    · rw [if_pos hfull]
      cases hB : db.backlog_ with
      | nil => rw [hB] at hfull; simp at hfull; omega
      | cons x B =>
        have hlenB : B.length + 1 = db.backlog_max_depth_.val := by
          rw [hB] at hfull; simpa using hfull
        simp only [List.tail_cons, List.length_append, List.length_cons, List.length_singleton,
          List.length_nil, Nat.zero_add, List.map_cons, List.append_assoc,
          List.singleton_append, List.cons_append, List.nil_append]
        have e1 : B.length + 1 + rest.length - db.backlog_max_depth_.val = rest.length := by
          omega
        have e2 : B.length + 1 + (rest.length + 1) - db.backlog_max_depth_.val
            = rest.length + 1 := by omega
        rw [e1, e2, List.drop_succ_cons]
        rfl
    · rw [if_neg hfull]
      simp only [List.length_append, List.length_cons, List.length_singleton,
        List.length_nil, Nat.zero_add, List.map_cons, List.append_assoc,
        List.singleton_append, List.nil_append]
      have e1 : db.backlog_.length + 1 + rest.length - db.backlog_max_depth_.val
          = db.backlog_.length + (rest.length + 1) - db.backlog_max_depth_.val := by omega
      rw [e1]
      rfl

/-- With max depth 0 a sequence of sends leaves the backlog as it is and issues one request per
send. -/
theorem InfluxDB.send_all_disabled (db : InfluxDB υ) (sends : List (υ × String))
    (h0 : db.backlog_max_depth_.val = 0) :
    (db.send_all net sends).backlog_ = db.backlog_
      ∧ posts (db.send_all net sends).http_request_.log
          = posts db.http_request_.log
            ++ sends.map (fun s => Event.post s.1 s.2 db.headers_) := by
  induction sends generalizing db with
  | nil => simp [InfluxDB.send_all]
  | cons s rest ih =>
    rw [InfluxDB.send_all_cons]
    obtain ⟨hb, _, hp⟩ := InfluxDB.send_data_disabled net db s.1 s.2 h0
    obtain ⟨ib, ip⟩ := ih (db.send_data net s.1 s.2) h0
    rw [show (db.send_data net s.1 s.2).headers_ = db.headers_ from rfl] at ip
    rw [ib, ip, hb, hp]
    simp

/-- With max depth `N >= 1` and an empty backlog, `N + 1` consecutive sends after each of which
the error status is set leave the backlog equal to the entries of the second to the last send,
in the order of the sends: the first, oldest, entry is the one evicted. -/
theorem InfluxDB.backlog_fifo_on_error_status (db : InfluxDB υ) (sends : List (υ × String))
    (hN : 1 ≤ db.backlog_max_depth_.val) (hempty : db.backlog_ = [])
    (hlen : sends.length = db.backlog_max_depth_.val + 1)
    (hfail : ∀ i, i < sends.length →
      (net (db.http_request_.requests + i)).status_error = true) :
    (db.send_all net sends).backlog_ = (sends.map entry_of).tail := by
  rw [InfluxDB.send_all_failed net db sends (by omega) (by simp [hempty]) hfail, hempty, hlen]
  have : ([] : List (BacklogEntry υ)).length + (db.backlog_max_depth_.val + 1)
      - db.backlog_max_depth_.val = 1 := by
    simp only [List.length_nil]; omega
  rw [this, List.nil_append, List.drop_one]

/-- C5: starting from an empty backlog, after every call in any sequence of sends, whatever the
transport answers, the backlog holds at most `backlog_max_depth_` entries. -/
theorem C5_backlog_capacity (db : InfluxDB υ) (sends : List (υ × String))
    (hempty : db.backlog_ = []) (n : Nat) :
    (db.send_all net (sends.take n)).backlog_.length ≤ db.backlog_max_depth_.val :=
  InfluxDB.send_all_capacity net db (sends.take n) (by simp [hempty])

/-- C6: with max depth 0 and an empty backlog, after every call in any sequence of sends,
whatever the transport answers, the backlog is empty, and the requests issued so far are
exactly one per send, each for the payload of that send. -/
theorem C6_backlog_disabled (db : InfluxDB υ) (sends : List (υ × String))
    (h0 : db.backlog_max_depth_ = 0) (hempty : db.backlog_ = []) (n : Nat) :
    (db.send_all net (sends.take n)).backlog_ = []
      ∧ posts (db.send_all net (sends.take n)).http_request_.log
          = posts db.http_request_.log
            ++ (sends.take n).map (fun s => Event.post s.1 s.2 db.headers_) := by
  have h := InfluxDB.send_all_disabled net db (sends.take n) (by simp [h0])
  exact ⟨h.1.trans hempty, h.2⟩

/-- C7: when the transport reports no error for the request of the payload (so in particular
when that request succeeds), with a backlog configured and drain batch size `b >= 1`, the
queued entries are re-posted oldest first after the payload; with `k` the number of re-posts
that succeed before the first failing one among the first `min b |B|` entries, the backlog
afterwards is `B` without its first `k` entries, the rest in the original order, so the
payload just sent is not enqueued; the re-posts are those of the first `k` entries and of the
next one when it is among the first `min b |B|`. -/
theorem C7_drain_on_success (db : InfluxDB υ) (url : υ) (data : String)
    (h : db.backlog_max_depth_.val ≠ 0) (hb : 1 ≤ db.backlog_drain_batch_.val)
    (hok : (net db.http_request_.requests).status_error = false) :
    (db.send_data net url data).backlog_
        = db.backlog_.drop (leading_successes net (db.http_request_.requests + 1)
            (min db.backlog_drain_batch_.val db.backlog_.length))
      ∧ posts (db.send_data net url data).http_request_.log
          = posts db.http_request_.log ++ Event.post url data db.headers_ ::
              (db.backlog_.take
                (min (leading_successes net (db.http_request_.requests + 1)
                    (min db.backlog_drain_batch_.val db.backlog_.length) + 1)
                  (min db.backlog_drain_batch_.val db.backlog_.length))).map
                (BacklogEntry.repost db.headers_) := by
  have hmax : max db.backlog_drain_batch_.val 1 = db.backlog_drain_batch_.val := by omega
  have hs := InfluxDB.send_data_ok net db url data h hok
  rw [hmax] at hs
  exact ⟨hs.1, hs.2.2⟩

/-- C8 as amended: a send for which the transport reports no error removes the first `k`
entries of the backlog for some `k` that is at most `max b 1`, so at most `b` entries when
`b >= 1` and at most one entry when `b = 0`. -/
theorem C8_drain_removes_at_most_batch (db : InfluxDB υ) (url : υ) (data : String)
    (hok : (net db.http_request_.requests).status_error = false) :
    ∃ k, k ≤ max db.backlog_drain_batch_.val 1
      ∧ (db.send_data net url data).backlog_ = db.backlog_.drop k
      ∧ db.backlog_.length - (db.send_data net url data).backlog_.length
          ≤ max db.backlog_drain_batch_.val 1 := by
  by_cases h : db.backlog_max_depth_.val = 0
  · refine ⟨0, Nat.zero_le _, ?_, ?_⟩
    · rw [(InfluxDB.send_data_disabled net db url data h).1]; rfl
    · rw [(InfluxDB.send_data_disabled net db url data h).1]; omega
  · have hs := (InfluxDB.send_data_ok net db url data h hok).1
    have hle := leading_successes_le net (db.http_request_.requests + 1)
      (min (max db.backlog_drain_batch_.val 1) db.backlog_.length)
    refine ⟨_, ?_, hs, ?_⟩
    · omega
    · rw [hs, List.length_drop]; omega

end CoordinatorProofs

/-! ## Publishing -/

section PublishingProofs

variable (value_accuracy_to_string : ℚ → Int → String) (net : Nat → PostResult)

theorem string_join_nil : String.join [] = "" := rfl

theorem string_join_cons (a : String) (l : List String) :
    String.join (a :: l) = a ++ String.join l := by
  apply String.ext
  simp [String.join_eq, String.data_append]

/-- Every entry of the backlog after `send_data` was in the backlog before or is the entry of
the payload of this call. -/
theorem InfluxDB.send_data_backlog_mem {υ : Type} (db : InfluxDB υ) (url : υ) (data : String)
    (e : BacklogEntry υ) (he : e ∈ (db.send_data net url data).backlog_) :
    e ∈ db.backlog_ ∨ e = { url := url, data := data } := by
  by_cases h : db.backlog_max_depth_.val = 0
  · rw [(InfluxDB.send_data_disabled net db url data h).1] at he
    exact Or.inl he
  · cases hs : (net db.http_request_.requests).status_error with
    | true =>
      rw [(InfluxDB.send_data_failed net db url data h hs).1, List.mem_append] at he
      rcases he with he | he
      · left
        split at he
        · exact List.mem_of_mem_tail he
        · exact he
      · right
        simpa using he
    | false =>
      rw [(InfluxDB.send_data_ok net db url data h hs).1] at he
      exact Or.inl (List.mem_of_mem_drop he)

/-- The loop of `publish_batch_action` appends to `data` the lines of the measurements that
have the parent `db` and the endpoint `url`, in list order. -/
theorem InfluxDB.publish_batch_loop_eq (db : Nat) (url ts : String) (ms : List Measurement)
    (data : String) :
    ∃ lines : List String,
      List.Forall₂ (fun m line => m.publish value_accuracy_to_string ts = some line)
          (ms.filter (fun m => decide (m.parent_ = db) && decide (m.url_ = url))) lines
        ∧ InfluxDB.publish_batch_loop value_accuracy_to_string db url ts ms data
            = some (data ++ String.join lines) := by
  induction ms generalizing data with
  | nil =>
    exact ⟨[], List.Forall₂.nil, by
      simp [InfluxDB.publish_batch_loop, string_join_nil, string_append_empty]⟩
  | cons m rest ih =>
    by_cases hp : m.parent_ = db
    · by_cases hu : m.url_ = url
      · obtain ⟨lines, hl, hloop⟩ := ih (data ++ (m.line_prefix_
          ++ segments value_accuracy_to_string " " (m.fields_.filter Field.sensor_has_state)
          ++ ts ++ "\n"))
        refine ⟨(m.line_prefix_
          ++ segments value_accuracy_to_string " " (m.fields_.filter Field.sensor_has_state)
          ++ ts ++ "\n") :: lines, ?_, ?_⟩
        · simp only [List.filter_cons, hp, hu, decide_True, Bool.and_self, if_true]
          exact List.Forall₂.cons (Measurement.publish_eq value_accuracy_to_string m ts) hl
        · simp only [InfluxDB.publish_batch_loop, hp, hu, ne_eq, not_true_eq_false, if_false,
            Measurement.publish_eq]
          rw [hloop, string_join_cons, String.append_assoc]
      · obtain ⟨lines, hl, hloop⟩ := ih data
        refine ⟨lines, ?_, ?_⟩
        · simpa [List.filter_cons, hp, hu] using hl
        · simpa [InfluxDB.publish_batch_loop, hp, hu] using hloop
    · obtain ⟨lines, hl, hloop⟩ := ih data
      refine ⟨lines, ?_, ?_⟩
      · simpa [List.filter_cons, hp] using hl
      · simpa [InfluxDB.publish_batch_loop, hp] using hloop

/-- C3: for a non-empty list of measurements `front :: rest`, `publish_batch_action` makes one
call of `send_data`, on the coordinator and to the endpoint of `front`; the payload is the
concatenation, in list order, of the lines `Measurement::publish` returns, all with the one
timestamp suffix computed from the clock of that coordinator, for exactly the measurements whose
coordinator and endpoint equal those of `front`; a backlog entry that the call adds is the entry
of this payload, so a measurement that differs in coordinator or endpoint is neither sent nor
enqueued. -/
theorem C3_batch_single_send (heap : Nat → InfluxDB String) (front : Measurement)
    (rest : List Measurement) :
    ∃ lines : List String,
      List.Forall₂
          (fun m line =>
            m.publish value_accuracy_to_string
              (match (heap front.parent_).clock_ with
                | none => ""
                | some clock => " " ++ toString clock.now.timestamp) = some line)
          (valid_in_batch front (front :: rest)) lines
        ∧ InfluxDB.publish_batch_action value_accuracy_to_string net heap (front :: rest)
            = some (Function.update heap front.parent_
                ((heap front.parent_).send_data net front.url_ (String.join lines)))
        ∧ ∀ e ∈ ((heap front.parent_).send_data net front.url_ (String.join lines)).backlog_,
            e ∈ (heap front.parent_).backlog_
              ∨ e = { url := front.url_, data := String.join lines } := by
  obtain ⟨lines, hl, hloop⟩ := InfluxDB.publish_batch_loop_eq value_accuracy_to_string
    front.parent_ front.url_
    (match (heap front.parent_).clock_ with
      | none => ""
      | some clock => " " ++ toString clock.now.timestamp) (front :: rest) ""
  refine ⟨lines, hl, ?_, fun e he => InfluxDB.send_data_backlog_mem net _ _ _ e he⟩
  have hempty : "" ++ String.join lines = String.join lines := by
    apply String.ext
    simp [String.data_append]
  simp only [InfluxDB.publish_batch_action, hloop, hempty]

/-- C10 as amended: when a time source is configured, whether or not its current time is valid,
`publish_action` and `publish_batch_action` render with the suffix made of a space and the epoch
second count of the clock in decimal. -/
theorem C10_suffix_ignores_validity (heap : Nat → InfluxDB String) (m : Measurement)
    (rest : List Measurement) (clock : RealTimeClock)
    (hclock : (heap m.parent_).clock_ = some clock) :
    InfluxDB.publish_action value_accuracy_to_string net heap m
        = (m.publish value_accuracy_to_string (" " ++ toString clock.now.timestamp)).map
            (fun data => Function.update heap m.parent_
              ((heap m.parent_).send_data net m.url_ data))
      ∧ InfluxDB.publish_batch_action value_accuracy_to_string net heap (m :: rest)
        = (InfluxDB.publish_batch_loop value_accuracy_to_string m.parent_ m.url_
              (" " ++ toString clock.now.timestamp) (m :: rest) "").map
            (fun data => Function.update heap m.parent_
              ((heap m.parent_).send_data net m.url_ data)) := by
  constructor
  · simp only [InfluxDB.publish_action, hclock]
    cases m.publish value_accuracy_to_string (" " ++ toString clock.now.timestamp) <;> rfl
  · simp only [InfluxDB.publish_batch_action, hclock]
    cases InfluxDB.publish_batch_loop value_accuracy_to_string m.parent_ m.url_
      (" " ++ toString clock.now.timestamp) (m :: rest) "" <;> rfl

end PublishingProofs

/-- With max depth 2 and three sends that meet the error status, the entries of the second and
third send remain. -/
theorem InfluxDB.backlog_fifo_on_error_status_example :
    ((example_db 2 1 []).send_all net_down example_sends).backlog_
      = [{ url := "http://db/w", data := "m a=2i\n" },
         { url := "http://db/w", data := "m a=3i\n" }] :=
  (InfluxDB.backlog_fifo_on_error_status net_down (example_db 2 1 []) example_sends (by decide) rfl rfl
    (fun _ _ => rfl)).trans (by decide)

/-- C5 with max depth 2 after three failing sends. -/
theorem C5_backlog_capacity_witness :
    ((example_db 2 1 []).send_all net_down (example_sends.take 3)).backlog_.length ≤ 2 :=
  C5_backlog_capacity net_down (example_db 2 1 []) example_sends rfl 3

/-- C6 with max depth 0 after three failing sends: no entry, three requests. -/
theorem C6_backlog_disabled_witness :
    ((example_db 0 1 []).send_all net_down (example_sends.take 3)).backlog_ = []
      ∧ posts ((example_db 0 1 []).send_all net_down (example_sends.take 3)).http_request_.log
          = [Event.post "http://db/w" "m a=1i\n" [], Event.post "http://db/w" "m a=2i\n" [],
             Event.post "http://db/w" "m a=3i\n" []] := by
  have h := C6_backlog_disabled net_down (example_db 0 1 []) example_sends rfl rfl 3
  exact ⟨h.1, h.2.trans (by decide)⟩

/-- C7 on the backlog `[E1, E2, E3]` with drain batch size 2: when the re-posts of `E1` and `E2`
succeed the backlog is left as `[E3]`; when the re-post of `E1` fails nothing is removed. -/
theorem C7_drain_on_success_witness :
    ((example_db 3 2 example_backlog).send_data net_up "http://db/w" "m a=4i\n").backlog_
        = [{ url := "http://db/w", data := "m a=3i\n" }]
      ∧ ((example_db 3 2 example_backlog).send_data net_second_fails "http://db/w"
          "m a=4i\n").backlog_ = example_backlog :=
  ⟨(C7_drain_on_success net_up (example_db 3 2 example_backlog) "http://db/w" "m a=4i\n"
      (by decide) (by decide) rfl).1.trans (by decide),
   (C7_drain_on_success net_second_fails (example_db 3 2 example_backlog) "http://db/w"
      "m a=4i\n" (by decide) (by decide) rfl).1.trans (by decide)⟩

/-- The batch `example_batch` on a transport that is down, with max depth 1: one request, whose
body holds the lines of the first and third measurement; the one backlog entry is that payload;
the coordinator at address 7 is not touched. -/
theorem publish_batch_action_example :
    (InfluxDB.publish_batch_action (fun _ _ => "") net_down (fun _ => example_db 1 1 [])
        example_batch).map
      (fun heap => (posts (heap 0).http_request_.log, (heap 0).backlog_, (heap 7).backlog_,
        (heap 7).http_request_.log))
      = some ([Event.post "http://db/api/v2/write?org=o&bucket=b"
                "weather,loc=roof door=1i,win=0i\nindoor door=1i,win=0i\n" []],
              [{ url := "http://db/api/v2/write?org=o&bucket=b",
                 data := "weather,loc=roof door=1i,win=0i\nindoor door=1i,win=0i\n" }],
              [], []) := by
  decide

/-- C8 as stated fails for drain batch size 0: a send without error on a backlog of one entry
whose re-post succeeds removes that entry, one more than the batch size. -/
theorem C8_counterexample :
    (example_db 3 0 (example_backlog.take 1)).backlog_drain_batch_.val = 0
      ∧ (net_up 0).status_error = false
      ∧ (example_db 3 0 (example_backlog.take 1)).backlog_.length = 1
      ∧ ((example_db 3 0 (example_backlog.take 1)).send_data net_up "http://db/w"
          "m a=4i\n").backlog_ = []
      ∧ ¬ ((example_db 3 0 (example_backlog.take 1)).backlog_.length
            - ((example_db 3 0 (example_backlog.take 1)).send_data net_up "http://db/w"
                "m a=4i\n").backlog_.length
          ≤ (example_db 3 0 (example_backlog.take 1)).backlog_drain_batch_.val) := by
  decide

/-- C8 as amended, with drain batch size 2 on `[E1, E2, E3]`: at most two entries leave. -/
theorem C8_drain_removes_at_most_batch_witness :
    ∃ k, k ≤ 2
      ∧ ((example_db 3 2 example_backlog).send_data net_up "http://db/w" "m a=4i\n").backlog_
          = example_backlog.drop k
      ∧ 3 - ((example_db 3 2 example_backlog).send_data net_up "http://db/w"
          "m a=4i\n").backlog_.length ≤ 2 :=
  C8_drain_removes_at_most_batch net_up (example_db 3 2 example_backlog) "http://db/w"
    "m a=4i\n" rfl

/-- C9 fails on a null response that comes without the error status: with max depth 1 and an
empty backlog the payload is not enqueued, although the drain loop of the same function takes a
null response to its re-post as a failure and keeps the entry. -/
theorem C9_null_response_not_enqueued :
    (net_null 0).response = none
      ∧ (example_db 1 1 []).backlog_max_depth_.val = 1
      ∧ ((example_db 1 1 []).send_data net_null "http://db/w" "m a=1i\n").backlog_ = []
      ∧ (InfluxDB.drain_loop net_null [] 1 (example_backlog.take 1) 0 {}).1
          = example_backlog.take 1 := by
  decide

/-- C10 as stated fails: with a clock that is configured and reports epoch second 5 without
valid time, the line posted by `publish_action` and by `publish_batch_action` ends in the
suffix ` 5`, not in the empty suffix. -/
theorem C10_counterexample :
    ((example_heap_invalid_clock example_measurement.parent_).clock_.map
        (fun clock => clock.now.is_valid)) = some false
      ∧ (InfluxDB.publish_action (fun _ _ => "") net_up example_heap_invalid_clock
          example_measurement).map (fun heap => posts (heap 0).http_request_.log)
        = some [Event.post "http://db/api/v2/write?org=o&bucket=b"
            "weather,loc=roof door=1i,win=0i 5\n" []]
      ∧ (InfluxDB.publish_batch_action (fun _ _ => "") net_up example_heap_invalid_clock
          [example_measurement]).map (fun heap => posts (heap 0).http_request_.log)
        = some [Event.post "http://db/api/v2/write?org=o&bucket=b"
            "weather,loc=roof door=1i,win=0i 5\n" []]
      ∧ example_measurement.publish (fun _ _ => "") ""
        = some "weather,loc=roof door=1i,win=0i\n" := by
  decide

/-- C10 as amended at a clock without valid time: the line is rendered with the suffix ` 5`. -/
theorem C10_suffix_ignores_validity_witness :
    (InfluxDB.publish_action (fun _ _ => "") net_up example_heap_invalid_clock
        example_measurement).map (fun heap => posts (heap 0).http_request_.log)
      = some [Event.post "http://db/api/v2/write?org=o&bucket=b"
          "weather,loc=roof door=1i,win=0i 5\n" []] :=
  (congrArg (Option.map (fun heap => posts (heap 0).http_request_.log))
    (C10_suffix_ignores_validity (fun _ _ => "") net_up example_heap_invalid_clock
      example_measurement [] { now := { timestamp := 5, is_valid := false } } rfl).1).trans
    (by decide)

/-! ## Timestamps, single publish and batch of one -/

section TimestampProofs

variable (value_accuracy_to_string : ℚ → Int → String) (net : Nat → PostResult)

/-- C11: when a time source is configured and reports valid time with epoch second count `t`,
`publish_action` sends the line rendered with the suffix made of one space and `t` in decimal;
when no time source is configured the suffix is empty and the line sent is the prefix and the
fields followed directly by the newline. -/
theorem C11_valid_time_suffix (heap : Nat → InfluxDB String) (m : Measurement) :
    (∀ clock : RealTimeClock, (heap m.parent_).clock_ = some clock →
        clock.now.is_valid = true →
        InfluxDB.publish_action value_accuracy_to_string net heap m
          = some (Function.update heap m.parent_
              ((heap m.parent_).send_data net m.url_
                (m.line_prefix_
                  ++ segments value_accuracy_to_string " "
                      (m.fields_.filter Field.sensor_has_state)
                  ++ (" " ++ toString clock.now.timestamp) ++ "\n"))))
      ∧ ((heap m.parent_).clock_ = none →
        InfluxDB.publish_action value_accuracy_to_string net heap m
          = some (Function.update heap m.parent_
              ((heap m.parent_).send_data net m.url_
                (m.line_prefix_
                  ++ segments value_accuracy_to_string " "
                      (m.fields_.filter Field.sensor_has_state)
                  ++ "\n")))) := by
  constructor
  · intro clock hclock _
    simp only [InfluxDB.publish_action, hclock, Measurement.publish_eq]
  · intro hclock
    simp only [InfluxDB.publish_action, hclock, Measurement.publish_eq, string_append_empty]

/-- C19: a batch of one measurement is a single publish: `publish_batch_action` on `[m]` does
what `publish_action` does on `m`, the one call of `send_data` on the coordinator of `m` with
the endpoint string and the payload of the single publish, for every state of the clock. -/
theorem C19_batch_of_one (heap : Nat → InfluxDB String) (m : Measurement) :
    InfluxDB.publish_batch_action value_accuracy_to_string net heap [m]
        = InfluxDB.publish_action value_accuracy_to_string net heap m
      ∧ ∃ data : String,
          InfluxDB.publish_action value_accuracy_to_string net heap m
            = some (Function.update heap m.parent_
                ((heap m.parent_).send_data net m.url_ data)) := by
  have hempty : ∀ t : String, "" ++ t = t := fun t => by
    apply String.ext
    simp [String.data_append]
  constructor
  · simp only [InfluxDB.publish_batch_action, InfluxDB.publish_action,
      InfluxDB.publish_batch_loop, Measurement.publish_eq, ne_eq, not_true_eq_false,
      if_false, hempty]
  · refine ⟨m.line_prefix_
      ++ segments value_accuracy_to_string " " (m.fields_.filter Field.sensor_has_state)
      ++ (match (heap m.parent_).clock_ with
          | none => ""
          | some clock => " " ++ toString clock.now.timestamp) ++ "\n", ?_⟩
    simp only [InfluxDB.publish_action, Measurement.publish_eq]

end TimestampProofs

/-- C11 at a clock with valid time 1700000000 and without a clock. -/
theorem C11_valid_time_suffix_witness :
    (InfluxDB.publish_action (fun _ _ => "") net_up example_heap_valid_clock
        example_measurement).map (fun heap => posts (heap 0).http_request_.log)
      = some [Event.post "http://db/api/v2/write?org=o&bucket=b"
          "weather,loc=roof door=1i,win=0i 1700000000\n" []]
    ∧ (InfluxDB.publish_action (fun _ _ => "") net_up example_heap_no_clock
        example_measurement).map (fun heap => posts (heap 0).http_request_.log)
      = some [Event.post "http://db/api/v2/write?org=o&bucket=b"
          "weather,loc=roof door=1i,win=0i\n" []] :=
  ⟨(congrArg (Option.map (fun heap => posts (heap 0).http_request_.log))
      ((C11_valid_time_suffix (fun _ _ => "") net_up example_heap_valid_clock
        example_measurement).1 { now := { timestamp := 1700000000, is_valid := true } }
        rfl rfl)).trans (by decide),
   (congrArg (Option.map (fun heap => posts (heap 0).http_request_.log))
      ((C11_valid_time_suffix (fun _ _ => "") net_up example_heap_no_clock
        example_measurement).2 rfl)).trans (by decide)⟩

/-! ## The format token -/

/-- C12: the format chosen by `SensorField::set_format` is decided by the first character of
the token alone: `f` selects the floating decimal format, `i` the rounded signed integer
format, and every other token, the empty one included, the rounded absolute-value unsigned
integer format; nothing else of the field changes. -/
theorem C12_set_format_first_character (f : SensorField) (format : String) :
    (f.set_format format).format_
        = (match format.data with
            | [] => SensorFieldFormat.UnsignedInteger
            | c :: _ =>
              if c = 'f' then SensorFieldFormat.Float
              else if c = 'i' then SensorFieldFormat.Integer
              else SensorFieldFormat.UnsignedInteger)
      ∧ f.set_format format = { f with format_ := (f.set_format format).format_ } := by
  cases hd : format.data with
  | nil =>
    have h1 : (Char.ofNat 0 = 'f') = False := by decide
    have h2 : (Char.ofNat 0 = 'i') = False := by decide
    simp [SensorField.set_format, hd, h1, h2]
  | cons c rest =>
    by_cases hf : c = 'f'
    · simp [SensorField.set_format, hd, hf]
    · by_cases hi : c = 'i'
      · have : ('i' = 'f') = False := by decide
        simp [SensorField.set_format, hd, hi, this]
      · simp [SensorField.set_format, hd, hf, hi]

/-! ## Failed sends and the work of one send -/

section SendProofs

variable {υ : Type} (net : Nat → PostResult)

/-- When the error status is set after the request for the payload, the call issues that
one request and no re-post, and the backlog is not drained: with max depth 0 it is unchanged,
otherwise it is the old backlog, without its oldest entry when it was at max depth, followed by
the entry of the payload. -/
theorem InfluxDB.no_drain_on_error_status (db : InfluxDB υ) (url : υ) (data : String)
    (he : (net db.http_request_.requests).status_error = true) :
    posts (db.send_data net url data).http_request_.log
        = posts db.http_request_.log ++ [Event.post url data db.headers_]
      ∧ (db.send_data net url data).http_request_.requests = db.http_request_.requests + 1
      ∧ (db.send_data net url data).backlog_
          = (if db.backlog_max_depth_.val = 0 then db.backlog_
             else (if db.backlog_.length = db.backlog_max_depth_.val then db.backlog_.tail
                   else db.backlog_) ++ [{ url := url, data := data }]) := by
  by_cases h : db.backlog_max_depth_.val = 0
  · obtain ⟨hb, hr, hp⟩ := InfluxDB.send_data_disabled net db url data h
    exact ⟨hp, hr, by rw [hb, if_pos h]⟩
  · obtain ⟨hb, hr, hp⟩ := InfluxDB.send_data_failed net db url data h he
    exact ⟨hp, hr, by rw [hb, if_neg h]⟩

/-- C20: the drain loop is a total function that removes an entry at each turn it repeats, and
one call of `send_data` issues at most `1 + min |backlog| (max b 1)` requests, for every
backlog, every drain batch size `b` in 0..255 and all transport answers; the 8-bit
`item_count` does not wrap around: when the loop is left it is the number of entries removed,
which is at most `max b 1`. -/
theorem C20_send_work_bounded (db : InfluxDB υ) (url : υ) (data : String)
    (http : HttpRequestComponent υ) :
    (db.send_data net url data).http_request_.requests
        ≤ db.http_request_.requests + 1
          + min db.backlog_.length (max db.backlog_drain_batch_.val 1)
      ∧ (posts (db.send_data net url data).http_request_.log).length
          ≤ (posts db.http_request_.log).length + 1
            + min db.backlog_.length (max db.backlog_drain_batch_.val 1)
      ∧ (InfluxDB.drain_loop net db.headers_ db.backlog_drain_batch_.val
            db.backlog_ 0 http).2.2
          = db.backlog_.length
            - (InfluxDB.drain_loop net db.headers_ db.backlog_drain_batch_.val
                db.backlog_ 0 http).1.length
      ∧ (InfluxDB.drain_loop net db.headers_ db.backlog_drain_batch_.val
            db.backlog_ 0 http).2.2 ≤ max db.backlog_drain_batch_.val 1 := by
  have hcount : (InfluxDB.drain_loop net db.headers_ db.backlog_drain_batch_.val
        db.backlog_ 0 http).2.2
      = db.backlog_.length
        - (InfluxDB.drain_loop net db.headers_ db.backlog_drain_batch_.val
            db.backlog_ 0 http).1.length
      ∧ (InfluxDB.drain_loop net db.headers_ db.backlog_drain_batch_.val
            db.backlog_ 0 http).2.2 ≤ max db.backlog_drain_batch_.val 1 := by
    have d1 := (InfluxDB.drain_loop_eq net db.headers_ db.backlog_drain_batch_.val
      db.backlog_drain_batch_.isLt db.backlog_ 0 http (by omega)).1
    have hle := leading_successes_le net http.requests
      (min (max (db.backlog_drain_batch_.val - 0) 1) db.backlog_.length)
    rw [d1]
    simp only [List.length_drop, Nat.sub_zero, Nat.zero_add] at hle ⊢
    omega
  refine ⟨?_, ?_, hcount.1, hcount.2⟩
  · by_cases h : db.backlog_max_depth_.val = 0
    · rw [(InfluxDB.send_data_disabled net db url data h).2.1]; omega
    · cases he : (net db.http_request_.requests).status_error with
      | true => rw [(InfluxDB.send_data_failed net db url data h he).2.1]; omega
      | false => rw [(InfluxDB.send_data_ok net db url data h he).2.1]; omega
  · by_cases h : db.backlog_max_depth_.val = 0
    · rw [(InfluxDB.send_data_disabled net db url data h).2.2]; simp
    · cases he : (net db.http_request_.requests).status_error with
      | true => rw [(InfluxDB.send_data_failed net db url data h he).2.2]; simp
      | false =>
        rw [(InfluxDB.send_data_ok net db url data h he).2.2]
        simp only [List.length_append, List.length_cons, List.length_map, List.length_take]
        omega

end SendProofs

/-- On a backlog of three entries at max depth 3 with the transport down: one request, the
oldest entry evicted, the payload at the back. -/
theorem InfluxDB.no_drain_on_error_status_example :
    posts ((example_db 3 2 example_backlog).send_data net_down "http://db/w"
        "m a=4i\n").http_request_.log
      = [Event.post "http://db/w" "m a=4i\n" []]
    ∧ ((example_db 3 2 example_backlog).send_data net_down "http://db/w" "m a=4i\n").backlog_
      = [{ url := "http://db/w", data := "m a=2i\n" }, { url := "http://db/w", data := "m a=3i\n" },
         { url := "http://db/w", data := "m a=4i\n" }] :=
  ⟨(InfluxDB.no_drain_on_error_status net_down (example_db 3 2 example_backlog) "http://db/w"
      "m a=4i\n" rfl).1.trans (by decide),
   (InfluxDB.no_drain_on_error_status net_down (example_db 3 2 example_backlog) "http://db/w"
      "m a=4i\n" rfl).2.2.trans (by decide)⟩

/-! ## Rounding and the integer formats -/

/-- `lroundf` gives a nearest integer, and at a half the one away from zero. -/
theorem lroundf_nearest (x : ℚ) :
    |(lroundf x : ℚ) - x| ≤ 1 / 2
      ∧ (|(lroundf x : ℚ) - x| = 1 / 2 → |x| < |(lroundf x : ℚ)|) := by
  unfold lroundf
  by_cases h : 0 ≤ x
  · rw [if_pos h]
    have h1 : ((⌊x + 1 / 2⌋ : Int) : ℚ) ≤ x + 1 / 2 := Int.floor_le _
    have h2 : x + 1 / 2 < ((⌊x + 1 / 2⌋ : Int) : ℚ) + 1 := Int.lt_floor_add_one _
    refine ⟨abs_le.mpr ⟨by linarith, by linarith⟩, fun heq => ?_⟩
    rcases (abs_eq (by norm_num : (0 : ℚ) ≤ 1 / 2)).mp heq with h3 | h3
    · rw [abs_of_nonneg h, abs_of_nonneg (by linarith)]
      linarith
    · linarith
  · rw [if_neg h]
    have hneg : x < 0 := lt_of_not_ge h
    have h1 : x - 1 / 2 ≤ ((⌈x - 1 / 2⌉ : Int) : ℚ) := Int.le_ceil _
    have h2 : ((⌈x - 1 / 2⌉ : Int) : ℚ) < x - 1 / 2 + 1 := Int.ceil_lt_add_one _
    refine ⟨abs_le.mpr ⟨by linarith, by linarith⟩, fun heq => ?_⟩
    rcases (abs_eq (by norm_num : (0 : ℚ) ≤ 1 / 2)).mp heq with h3 | h3
    · linarith
    · rw [abs_of_neg hneg, abs_of_neg (by linarith)]
      linarith

section NumericProofs

variable (value_accuracy_to_string : ℚ → Int → String)

/-- C13: a numeric field in signed integer format, on a sensor whose value `v` is the raw value
when the raw flag is set and the processed value otherwise, appends the decimal text of an
integer `n` followed by `i`, where `n` is `v` rounded to the nearest integer with halves
rounded away from zero: `n` is within one half of `v`, and when it is exactly one half away it
is the one of larger absolute value. -/
theorem C13_signed_integer_format (f : SensorField) (s : Sensor) (line : String) (v : ℚ)
    (hs : f.sensor_ = some s) (hf : f.format_ = SensorFieldFormat.Integer)
    (hv : v = if f.raw_state_ then s.raw_state else s.state) :
    f.publish value_accuracy_to_string line = some (line ++ (toString (lroundf v) ++ "i"))
      ∧ |(lroundf v : ℚ) - v| ≤ 1 / 2
      ∧ (|(lroundf v : ℚ) - v| = 1 / 2 → |v| < |(lroundf v : ℚ)|) := by
  refine ⟨?_, (lroundf_nearest v).1, (lroundf_nearest v).2⟩
  simp only [SensorField.publish, hs, hf, hv]

end NumericProofs

/-- C13 at the values of the claim: 3.14159 gives `3i`, the raw value 2.5 gives `3i`, and -2.5
gives `-3i`. -/
theorem C13_signed_integer_format_witness :
    (example_sensor_field SensorFieldFormat.Integer false (314159 / 100000) 0).publish
        (fun _ _ => "") "" = some "3i"
      ∧ (example_sensor_field SensorFieldFormat.Integer true 0 (5 / 2)).publish
        (fun _ _ => "") "" = some "3i"
      ∧ (example_sensor_field SensorFieldFormat.Integer false (-5 / 2) 0).publish
        (fun _ _ => "") "" = some "-3i" := by
  have h1 : lroundf (314159 / 100000) = 3 := by
    unfold lroundf; norm_num [Int.floor_eq_iff]
  have h2 : lroundf (5 / 2) = 3 := by
    unfold lroundf; norm_num [Int.floor_eq_iff]
  have h3 : lroundf (-5 / 2) = -3 := by
    unfold lroundf; norm_num [Int.ceil_eq_iff]
  refine ⟨?_, ?_, ?_⟩
  · rw [(C13_signed_integer_format (fun _ _ => "")
      (example_sensor_field SensorFieldFormat.Integer false (314159 / 100000) 0) _ ""
      (314159 / 100000) rfl rfl rfl).1, h1]
    decide
  · rw [(C13_signed_integer_format (fun _ _ => "")
      (example_sensor_field SensorFieldFormat.Integer true 0 (5 / 2)) _ ""
      (5 / 2) rfl rfl rfl).1, h2]
    decide
  · rw [(C13_signed_integer_format (fun _ _ => "")
      (example_sensor_field SensorFieldFormat.Integer false (-5 / 2) 0) _ ""
      (-5 / 2) rfl rfl rfl).1, h3]
    decide

section HeaderProofs

variable {υ : Type} (net : Nat → PostResult)

theorem c_str_of_no_nul (s : String) (h : Char.ofNat 0 ∉ s.data) : c_str s = s := by
  unfold c_str
  apply String.ext
  simp only
  rw [List.takeWhile_eq_self_iff]
  intro c hc
  have : c ≠ Char.ofNat 0 := fun heq => h (heq ▸ hc)
  simpa using this

/-- Every request of one `send_data` call carries the header list of the coordinator. -/
theorem InfluxDB.send_data_posts_headers (db : InfluxDB υ) (url : υ) (data : String) :
    ∃ l : List (Event υ),
      posts (db.send_data net url data).http_request_.log = posts db.http_request_.log ++ l
        ∧ ∀ ev ∈ l, ∃ (u : υ) (d : String), ev = Event.post u d db.headers_ := by
  by_cases h : db.backlog_max_depth_.val = 0
  · refine ⟨_, (InfluxDB.send_data_disabled net db url data h).2.2, ?_⟩
    intro ev hev
    exact ⟨url, data, by simpa using hev⟩
  · cases he : (net db.http_request_.requests).status_error with
    | true =>
      refine ⟨_, (InfluxDB.send_data_failed net db url data h he).2.2, ?_⟩
      intro ev hev
      exact ⟨url, data, by simpa using hev⟩
    | false =>
      refine ⟨_, (InfluxDB.send_data_ok net db url data h he).2.2, ?_⟩
      intro ev hev
      rcases List.mem_cons.mp hev with h1 | h1
      · exact ⟨url, data, h1⟩
      · obtain ⟨e, _, he2⟩ := List.mem_map.mp h1
        exact ⟨e.url, e.data, he2.symm⟩

/-- Every request of a sequence of `send_data` calls carries the header list of the
coordinator. -/
theorem InfluxDB.send_all_posts_headers (db : InfluxDB υ) (sends : List (υ × String)) :
    ∃ l : List (Event υ),
      posts (db.send_all net sends).http_request_.log = posts db.http_request_.log ++ l
        ∧ ∀ ev ∈ l, ∃ (u : υ) (d : String), ev = Event.post u d db.headers_ := by
  induction sends generalizing db with
  | nil => exact ⟨[], by simp [InfluxDB.send_all], by simp⟩
  | cons s rest ih =>
    obtain ⟨l1, h1, hl1⟩ := InfluxDB.send_data_posts_headers net db s.1 s.2
    obtain ⟨l2, h2, hl2⟩ := ih (db.send_data net s.1 s.2)
    rw [show (db.send_data net s.1 s.2).headers_ = db.headers_ from rfl] at hl2
    refine ⟨l1 ++ l2, ?_, ?_⟩
    · rw [InfluxDB.send_all_cons, h2, h1, List.append_assoc]
    · intro ev hev
      rcases List.mem_append.mp hev with h | h
      · exact hl1 ev h
      · exact hl2 ev h

/-- C15 as amended: `setup` on a freshly constructed coordinator `fresh` (empty header list)
gives the three base headers when no credential was configured, and those three followed by
`Authorization` with the value `Token ` and the credential, cut at its first NUL character,
when a credential `c` was configured with `set_token`; for a credential without a NUL character
the value is `Token ` followed by the whole credential. On every coordinator `db`, so on one
that has been set up, every request of every sequence of `send_data` calls (the request of each
payload and every re-post) carries the header list of the coordinator, and the calls leave the
list as it is. -/
theorem C15_setup_headers (fresh db : InfluxDB υ) (c : String) (sends : List (υ × String)) :
    (fresh.headers_ = [] →
        (fresh.token_ = "" → fresh.setup.headers_ = base_headers)
          ∧ (fresh.set_token c).setup.headers_
              = base_headers ++ [{ name := "Authorization", value := c_str ("Token " ++ c) }]
          ∧ (Char.ofNat 0 ∉ c.data →
              (fresh.set_token c).setup.headers_
                = base_headers ++ [{ name := "Authorization", value := "Token " ++ c }]))
      ∧ (db.send_all net sends).headers_ = db.headers_
      ∧ ∃ l : List (Event υ),
          posts (db.send_all net sends).http_request_.log = posts db.http_request_.log ++ l
            ∧ ∀ ev ∈ l, ∃ (u : υ) (d : String), ev = Event.post u d db.headers_ := by
  refine ⟨fun hfresh => ?_, (InfluxDB.send_all_settings net db sends).2,
    InfluxDB.send_all_posts_headers net db sends⟩
  have hne : ("Token " ++ c).isEmpty = false := by
    cases hc : ("Token " ++ c).isEmpty with
    | false => rfl
    | true =>
      have h1 := (String.isEmpty_iff _).mp hc
      have h2 := congrArg String.data h1
      simp [String.data_append] at h2
  have hset : (fresh.set_token c).setup.headers_
      = base_headers ++ [{ name := "Authorization", value := c_str ("Token " ++ c) }] := by
    simp [InfluxDB.setup, InfluxDB.set_token, hfresh, hne, base_headers]
  refine ⟨?_, hset, ?_⟩
  · intro htok
    have hemp : "".isEmpty = true := by decide
    simp [InfluxDB.setup, hfresh, htok, hemp, base_headers]
  · intro hnul
    rw [hset, c_str_of_no_nul]
    intro hmem
    rw [String.data_append, List.mem_append] at hmem
    rcases hmem with h | h
    · revert h; decide
    · exact hnul h

end HeaderProofs

/-- C15 as stated fails for a credential with a NUL character: the header value stops before
it. -/
theorem C15_counterexample :
    ((({} : InfluxDB String).set_token example_credential_with_nul).setup).headers_
        = base_headers ++ [{ name := "Authorization", value := "Token a" }]
      ∧ ((({} : InfluxDB String).set_token example_credential_with_nul).setup).headers_
        ≠ base_headers
          ++ [{ name := "Authorization", value := "Token " ++ example_credential_with_nul }] := by
  decide

/-- C15 as amended on a fresh coordinator, without a credential and with the credential
`secret`, and on the coordinator set up with that credential: after three sends, the second of
which re-posts the queued entry of the first, the header list is still the four headers and each
of the four requests carried them. -/
theorem C15_setup_headers_witness :
    (({} : InfluxDB String).setup).headers_ = base_headers
      ∧ ((({} : InfluxDB String).set_token "secret").setup).headers_
        = base_headers ++ [{ name := "Authorization", value := "Token secret" }]
      ∧ (example_db_set_up.send_all net_first_fails example_sends).headers_
        = base_headers ++ [{ name := "Authorization", value := "Token secret" }]
      ∧ ∃ l : List (Event String),
          posts (example_db_set_up.send_all net_first_fails example_sends).http_request_.log
              = posts example_db_set_up.http_request_.log ++ l
            ∧ ∀ ev ∈ l, ∃ (u : String) (d : String),
                ev = Event.post u d
                  (base_headers ++ [{ name := "Authorization", value := "Token secret" }]) :=
  ⟨((C15_setup_headers net_up ({} : InfluxDB String) {} "secret" []).1 rfl).1 rfl,
   ((C15_setup_headers net_up ({} : InfluxDB String) {} "secret" []).1 rfl).2.2 (by decide),
   (C15_setup_headers net_first_fails {} example_db_set_up "secret" example_sends).2.1.trans
     (by decide),
   (C15_setup_headers net_first_fails {} example_db_set_up "secret" example_sends).2.2⟩

/-- The requests of the three sends of the witness of C15: the first fails and is queued, the
second and third succeed and the second re-posts the queued entry; all carry the four
headers. -/
theorem send_all_headers_example :
    posts (example_db_set_up.send_all net_first_fails example_sends).http_request_.log
      = [Event.post "http://db/w" "m a=1i\n"
           (base_headers ++ [{ name := "Authorization", value := "Token secret" }]),
         Event.post "http://db/w" "m a=2i\n"
           (base_headers ++ [{ name := "Authorization", value := "Token secret" }]),
         Event.post "http://db/w" "m a=1i\n"
           (base_headers ++ [{ name := "Authorization", value := "Token secret" }]),
         Event.post "http://db/w" "m a=3i\n"
           (base_headers ++ [{ name := "Authorization", value := "Token secret" }])] := by
  decide

/-! ## Releasing responses -/

/-- C16 fails when a re-post gets a response together with the error status: on the backlog
`[E1, E2, E3]` with the request of the payload answered well (container 0) and the re-post of
`E1` answered by a response with the error status (container 1), the drain loop is left and
`send_data` returns with `end()` called on container 0 only. -/
theorem C16_failed_repost_response_not_ended :
    (net_second_fails 1).response = some []
      ∧ ((example_db 3 2 example_backlog).send_data net_second_fails "http://db/w"
          "m a=4i\n").http_request_.log
        = [Event.post "http://db/w" "m a=4i\n" [], Event.read 0 12, Event.read 0 0,
           Event.post "http://db/w" "m a=1i\n" [], Event.end_ 0]
      ∧ Event.end_ 1 ∉ ((example_db 3 2 example_backlog).send_data net_second_fails
          "http://db/w" "m a=4i\n").http_request_.log := by
  decide

/-! ## Ownership of the endpoint of a backlog entry -/

/-- C18 fails for `publish_batch_action`: a batch of one measurement sent while the transport is
down leaves a backlog entry whose endpoint is the local `url` of that activation, an object that
is destroyed when the function returns; the next `publish_action`, which succeeds, re-posts the
entry through that reference while the object no longer exists. The payload of the entry is
owned and intact. -/
theorem C18_batch_entry_endpoint_dangling :
    (InfluxDB.publish_batch_action_ref (fun _ _ => "") net_first_fails example_memory
        (fun _ => example_db_ref) 0 [example_measurement]).map
      (fun r => ((r.1 0).backlog_, r.2 (UrlRef.batch_local 0)))
      = some ([{ url := UrlRef.batch_local 0, data := "weather,loc=roof door=1i,win=0i\n" }],
              none)
    ∧ ((InfluxDB.publish_batch_action_ref (fun _ _ => "") net_first_fails example_memory
          (fun _ => example_db_ref) 0 [example_measurement]).bind
        (fun r => InfluxDB.publish_action_ref (fun _ _ => "") net_first_fails r.2 r.1 0
          example_measurement)).map
      (fun r => (posts (r.1 0).http_request_.log, r.2 (UrlRef.batch_local 0),
        r.2 (UrlRef.member 0)))
      = some ([Event.post (UrlRef.batch_local 0) "weather,loc=roof door=1i,win=0i\n" [],
               Event.post (UrlRef.member 0) "weather,loc=roof door=1i,win=0i\n" [],
               Event.post (UrlRef.batch_local 0) "weather,loc=roof door=1i,win=0i\n" []],
              none, some "http://db/api/v2/write?org=o&bucket=b") := by
  decide

/-! ## Failures that come as a null response -/

/-- C4 fails when the sends fail by a null response that comes without the error status: with
max depth 2 and an empty backlog, three consecutive sends that all get a null response leave the
backlog empty, not equal to the entries of the second and third send. -/
theorem C4_null_failures_not_enqueued :
    (∀ i, i < 3 → (net_null i).response = none ∧ (net_null i).succeeds = false)
      ∧ (example_db 2 1 []).backlog_max_depth_.val = 2
      ∧ example_sends.length = 3
      ∧ ((example_db 2 1 []).send_all net_null example_sends).backlog_ = []
      ∧ ((example_db 2 1 []).send_all net_null example_sends).backlog_
          ≠ (example_sends.map entry_of).tail := by
  decide

/-- C17 fails when the request of the payload fails by a null response that comes without the
error status: on the backlog `[E1]` with max depth 3, the call re-posts `E1` after the failed
request of the payload, removes it from the backlog, and does not enqueue the payload. -/
theorem C17_null_failure_drains :
    (net_first_null 0).response = none
      ∧ (net_first_null 0).succeeds = false
      ∧ posts ((example_db 3 1 (example_backlog.take 1)).send_data net_first_null
          "http://db/w" "m a=4i\n").http_request_.log
        = [Event.post "http://db/w" "m a=4i\n" [], Event.post "http://db/w" "m a=1i\n" []]
      ∧ ((example_db 3 1 (example_backlog.take 1)).send_data net_first_null "http://db/w"
          "m a=4i\n").backlog_ = [] := by
  decide

end influxdb
